import Mathlib

/-!
Shallow embedding of OpenTTD's `src/object_cmd.cpp` (object-tile handling):
the object registry and per-kind counts, the build/clear command protocol
(`CmdBuildObject`, `BuildObject`, `ClearTile_Object`), company-HQ growth
(`UpdateCompanyHQ`, `IncreaseAnimationStage`) and the world-generation
placement pass (`IsRadioTowerNearby`, `GenerateObjects`).

External collaborators that the source file only declares (the map array
accessors, `CheckFlatLand`, `MakeWaterKeepingClass`, the object-kind table
`table/object_land.h`, prices, the random source) are modelled from the
specification; each such definition carries a doc comment saying so.

Machine integers are modelled as `Nat`/`Int`; the only place where overflow
can matter for the proved properties is the per-cell animation byte, which is
reduced mod 256 on every store.
-/

set_option maxHeartbeats 2000000

namespace OTTD

/-- Object kinds (`ObjectType` in object.h; `NUM_OBJECTS = 5`). -/
inductive ObjectType
  | transmitter
  | lighthouse
  | statue
  | ownedLand
  | hq
deriving DecidableEq

/-- Water reclamation class stored per cell (`WaterClass`, water_map.h). -/
inductive WaterClass
  | invalid
  | sea
  | canal
  | river
deriving DecidableEq

/-- Tile type tag (`TileType`, tile_type.h); `other` stands for the remaining
tile types (houses, trees, rail, ...) that this subsystem never creates. -/
inductive TType
  | clear
  | water
  | object
  | voidT
  | other
deriving DecidableEq

/-- Game mode (`_game_mode`). -/
inductive GameMode
  | menu
  | normal
  | editor
deriving DecidableEq

/-- Landscape / terrain theme (`_settings_game.game_creation.landscape`). -/
inductive Landscape
  | temperate
  | arctic
  | tropic
  | toyland
deriving DecidableEq

/-- Error messages surfaced by this file; `generic` is a bare `CMD_ERROR`. -/
inductive StringID
  | generic
  | tooManyObjects
  | mustFoundTownFirst
  | flatLandRequired
  | youAlreadyOwnIt
  | companyHeadquartersIn
  | objectInTheWay
  | ownedBy
deriving DecidableEq

/-- Result of a command: success flag, error message, accumulated money. -/
structure CommandCost where
  failed : Bool
  message : StringID
  cost : Int
deriving DecidableEq

def CommandCost.zero : CommandCost := ⟨false, StringID.generic, 0⟩

/-- A bare `CMD_ERROR` (failure without a specific message). -/
def cmdError : CommandCost := ⟨true, StringID.generic, 0⟩

/-- The `return_cmd_error(msg)` result. -/
def cmdErrorMsg (m : StringID) : CommandCost := ⟨true, m, 0⟩

/-- `CommandCost::AddCost(const CommandCost&)`: money accumulates, a failure
of either operand makes the sum failed, keeping the earliest message. -/
def CommandCost.addCost (a b : CommandCost) : CommandCost :=
  { failed := a.failed || b.failed
    message := if a.failed then a.message else if b.failed then b.message else a.message
    cost := a.cost + b.cost }

/-- `CommandCost::AddCost(Money)`. -/
def CommandCost.addMoney (a : CommandCost) (m : Int) : CommandCost :=
  { a with cost := a.cost + m }

/-- Command execution flags; only `DC_EXEC` (commit) and `DC_AUTO` are read
by this file. -/
structure DoCommandFlag where
  exec : Bool
  auto : Bool
deriving DecidableEq

/-- Per-cell state of the map array relevant to object tiles: the tile type
tag, underlying slope/height, bridge-above bit, owner, and for object cells
the kind tag, owning object id, water-reclamation class, animation frame
(byte) and random bits. -/
structure Cell where
  ttype : TType
  slope : Nat
  height : Nat
  bridgeAbove : Bool
  owner : Nat
  objType : ObjectType
  objIndex : Nat
  wc : WaterClass
  frame : Nat
  randomBits : Nat
deriving DecidableEq

/-- A rectangular tile area (`TileArea`): north tile plus width and height. -/
structure TileArea where
  tile : Nat
  w : Nat
  h : Nat
deriving DecidableEq

/-- A pooled `Object` record. -/
structure ObjectRec where
  location : TileArea
  town : Nat
  buildDate : Nat
deriving DecidableEq

/-- The company fields this subsystem touches (`location_of_HQ`) or reads
(company value for the HQ relocation charge, performance score). -/
structure Company where
  locationOfHQ : Nat
  value : Nat
  performance : Nat
deriving DecidableEq

/-- The town field this subsystem touches: the per-company statue bitmask. -/
structure Town where
  statues : Nat
deriving DecidableEq

/-- The shared world state: map dimensions, the map array, the object pool
with its counters, company and town records, and the ambient globals read by
this file (`_current_company`, `_game_mode`, settings, cheats, `_date`, the
random seed and the closest-town resolver). -/
structure World where
  mapX : Nat
  mapY : Nat
  tiles : Nat → Cell
  objects : Nat → Option ObjectRec
  nextObjectId : Nat
  liveObjects : Nat
  counts : ObjectType → Nat
  companies : Nat → Company
  towns : Nat → Town
  numTowns : Nat
  currentCompany : Nat
  gameMode : GameMode
  landscape : Landscape
  freeformEdges : Bool
  magicBulldozer : Bool
  date : Nat
  randSeed : Nat
  closestTown : Nat → Nat

/-- `INVALID_TILE` sentinel (0xFFFFFFFF). -/
def INVALID_TILE : Nat := 4294967295

/-- `OWNER_NONE` (0x10). -/
def OWNER_NONE : Nat := 16

/-- `OWNER_WATER` (0x11), used as the privileged force context. -/
def OWNER_WATER : Nat := 17

/-- `MAX_COMPANIES`. -/
def MAX_COMPANIES : Nat := 15

/-- `TILE_HEIGHT`. -/
def TILE_HEIGHT : Nat := 8

/-- Modelled from the spec: the object pool's implementation-defined maximum
(`Object::CanAllocateItem` checks it; the pool class is not under src/). -/
def OBJECT_POOL_MAX : Nat := 64000

/-- Modelled from the spec: the per-cell price charged by the generic
land-clearing check for bare terrain (price table not under src/). -/
def CLEAR_PRICE : Int := 10

/-- Static per-kind configuration (`ObjectSpec`). -/
structure ObjectSpec where
  sizeX : Nat
  sizeY : Nat
  buildCost : Int
  clearCost : Int
  onlyInScenedit : Bool
  onlyInGame : Bool
  autoremove : Bool
  clearIncome : Bool
  enabled : Bool
deriving DecidableEq

/-- Modelled from the spec: the static object-kind table
(`table/object_land.h`, not under src/): footprint sizes (HQ is the one
2x2 kind), flags (towers and lighthouses only in world creation, the rest
only in normal play; owned land permits automatic removal and yields income
when cleared), and representative build/clear costs. -/
def ObjectSpec.get : ObjectType → ObjectSpec
  | ObjectType.transmitter => ⟨1, 1, 100, 20, true, false, false, false, true⟩
  | ObjectType.lighthouse  => ⟨1, 1, 100, 20, true, false, false, false, true⟩
  | ObjectType.statue      => ⟨1, 1, 300, 40, false, true, false, false, true⟩
  | ObjectType.ownedLand   => ⟨1, 1, 10, 10, false, true, true, true, true⟩
  | ObjectType.hq          => ⟨2, 2, 500, 40, false, true, false, false, true⟩

/-- `TileXY`: the linear index of coordinates, row stride `mapX`. -/
def tileXY (mapX x y : Nat) : Nat := y * mapX + x

/-- `TileX`. -/
def tileXc (mapX t : Nat) : Nat := t % mapX

/-- `TileY`. -/
def tileYc (mapX t : Nat) : Nat := t / mapX

/-- The tiles of a `TileArea`, row by row (`TILE_AREA_LOOP`). -/
def areaTiles (mapX : Nat) (ta : TileArea) : List Nat :=
  (List.range ta.h).flatMap fun dy => (List.range ta.w).map fun dx => ta.tile + dy * mapX + dx

/-- `MakeObject` (object_map.h): stamp one cell as an object cell, keeping
the underlying slope/height and bridge bit, clearing the animation frame. -/
def makeObject (s : World) (t : Nat) (type : ObjectType) (owner : Nat) (index : Nat)
    (wc : WaterClass) (rand : Nat) : World :=
  let c : Cell := { s.tiles t with ttype := TType.object, owner := owner, objType := type, objIndex := index, wc := wc, frame := 0, randomBits := rand }
  { s with tiles := Function.update s.tiles t c }

/-- Modelled from the spec: the deterministic random source (`Random()`); its
algorithm is out of scope, so drawing is modelled as stepping a counter. -/
def randomDraw (s : World) : Nat × World :=
  (s.randSeed, { s with randSeed := s.randSeed + 1 })

/-- One iteration of `BuildObject`'s `TILE_AREA_LOOP`: compute the cell's
water class (`IsWaterTile ? GetWaterClass : WATER_CLASS_INVALID`), draw the
random bits and stamp the cell. -/
def stampTile (type : ObjectType) (owner oid : Nat) (acc : World) (t : Nat) : World :=
  let wc := if (acc.tiles t).ttype = TType.water then (acc.tiles t).wc else WaterClass.invalid
  let r := randomDraw acc
  makeObject r.2 t type owner oid wc r.1

/-- `BuildObject`: allocate the Object record, fill location/town/date, stamp
every cell of the footprint, and increment the kind's live count. -/
def buildObject (s : World) (type : ObjectType) (tile : Nat) (owner : Nat)
    (town : Option Nat) : World :=
  let spec := ObjectSpec.get type
  let ta : TileArea := ⟨tile, spec.sizeX, spec.sizeY⟩
  let oid := s.nextObjectId
  let o : ObjectRec :=
    { location := ta
      town := match town with | none => s.closestTown tile | some tw => tw
      buildDate := s.date }
  let s1 := { s with objects := Function.update s.objects oid (some o),
                     nextObjectId := oid + 1, liveObjects := s.liveObjects + 1 }
  let s2 := (areaTiles s1.mapX ta).foldl (stampTile type owner oid) s1
  { s2 with counts := Function.update s2.counts type (s2.counts type + 1) }

/-- `IncreaseAnimationStage`: add one (as a byte) to the animation frame of
every cell of the structure the tile belongs to. A dead pool slot would be a
caller contract violation in the source; it is modelled as a no-op. -/
def increaseAnimationStage (s : World) (tile : Nat) : World :=
  match s.objects ((s.tiles tile).objIndex) with
  | none => s
  | some o =>
      (areaTiles s.mapX o.location).foldl
        (fun acc t =>
          let c : Cell := { acc.tiles t with frame := ((acc.tiles t).frame + 1) % 256 }
          { acc with tiles := Function.update acc.tiles t c }) s

/-- The target HQ size level computed by `UpdateCompanyHQ`'s comma chain:
breakpoints 170/350/520/720. -/
def hqTargetLevel (score : Nat) : Nat :=
  if score < 170 then 0
  else if score < 350 then 1
  else if score < 520 then 2
  else if score < 720 then 3
  else 4

/-- The `while (GetCompanyHQSize(tile) < val)` loop of `UpdateCompanyHQ`.
The fuel bounds the iteration count; whenever the tile lies inside its own
object's footprint the loop needs at most `val ≤ 4` steps, so any fuel of at
least 4 realizes the source's loop exactly. -/
def hqGrowLoop : Nat → World → Nat → Nat → World
  | 0, s, _, _ => s
  | fuel + 1, s, tile, val =>
      if (s.tiles tile).frame < val then hqGrowLoop fuel (increaseAnimationStage s tile) tile val
      else s

/-- `UpdateCompanyHQ`: no-op on the invalid-tile sentinel, otherwise grow the
stored size level (the animation frame) up to the score's target level. -/
def updateCompanyHQ (s : World) (tile : Nat) (score : Nat) : World :=
  if tile = INVALID_TILE then s
  else hqGrowLoop 8 s tile (hqTargetLevel score)

/-- Modelled from the spec: `CheckTileOwnership` (not under src/) succeeds
iff the executing company owns the tile. -/
def checkTileOwnership (s : World) (t : Nat) : CommandCost :=
  if (s.tiles t).owner = s.currentCompany then CommandCost.zero
  else cmdErrorMsg StringID.ownedBy

/-- Modelled from the spec: `CheckFlatLand` (declared extern in the source):
every cell of the rectangle must be flat, clearable bare terrain at one
common height, accumulating one terrain clear price per cell. The model
performs no mutation; the real routine also executes the underlying clears
when committing, which is observable only on already-occupied ground that
this model rejects outright. -/
def checkFlatLand (s : World) (ta : TileArea) (_flags : DoCommandFlag) : CommandCost :=
  (areaTiles s.mapX ta).foldl
    (fun acc t =>
      if acc.failed then acc
      else if (s.tiles t).ttype = TType.clear ∧ (s.tiles t).slope = 0 ∧
              (s.tiles t).height = (s.tiles ta.tile).height
      then acc.addMoney CLEAR_PRICE
      else { acc with failed := true })
    CommandCost.zero

/-- Modelled from the spec: the generic land-clearing command
(`CMD_LANDSCAPE_CLEAR`) on a single cell, used by the owned-land kind, which
accepts any slope: it succeeds exactly on clearable bare terrain, charging
the terrain clear price, and is modelled as mutation-free. -/
def doLandscapeClear (s : World) (t : Nat) (_flags : DoCommandFlag) : CommandCost :=
  if (s.tiles t).ttype = TType.clear then ⟨false, StringID.generic, CLEAR_PRICE⟩
  else cmdError

/-- Clearing a bit of the statue bitmask (`ClrBit`). -/
def clrBit (n i : Nat) : Nat := if n.testBit i then n - 2 ^ i else n

/-- Modelled from the spec: `MakeWaterKeepingClass` (water_cmd.cpp, not under
src/): revert the cell to terrain, restoring water where the stored water
class says so; a cell without a stored water class becomes bare clear land
owned by nobody. -/
def makeWaterKeepingClass (s : World) (t : Nat) : World :=
  let c := s.tiles t
  if c.wc = WaterClass.invalid then
    let c' : Cell := { c with ttype := TType.clear, owner := OWNER_NONE, frame := 0, wc := WaterClass.invalid }
    { s with tiles := Function.update s.tiles t c' }
  else
    let c' : Cell := { c with ttype := TType.water, owner := c.owner, frame := 0 }
    { s with tiles := Function.update s.tiles t c' }

/-- The permission ladder of `ClearTile_Object` (its first block), factored
out verbatim: `none` means the clear may proceed. -/
def clearPermissionCheck (s : World) (tile : Nat) (type : ObjectType) (spec : ObjectSpec)
    (flags : DoCommandFlag) : Option CommandCost :=
  if s.currentCompany = OWNER_WATER then none
  else if spec.autoremove = false ∧ flags.auto = true then
    some (cmdErrorMsg (if type = ObjectType.hq then StringID.companyHeadquartersIn
                       else StringID.objectInTheWay))
  else if s.gameMode = GameMode.editor then none
  else if (s.tiles tile).owner = OWNER_NONE then
    (if s.magicBulldozer then none else some cmdError)
  else if (checkTileOwnership s tile).failed then some (cmdErrorMsg StringID.ownedBy)
  else if spec.autoremove = false ∧ s.magicBulldozer = false then some cmdError
  else none

/-- `ClearTile_Object`. A dead pool slot behind the cell's stored object id
would be a caller contract violation (assertion) in the source; it is
modelled as a bare failure. -/
def clearTile_Object (s : World) (tile : Nat) (flags : DoCommandFlag) : CommandCost × World :=
  let type := (s.tiles tile).objType
  let spec := ObjectSpec.get type
  match s.objects ((s.tiles tile).objIndex) with
  | none => (cmdError, s)
  | some o =>
    let ta := o.location
    match clearPermissionCheck s tile type spec flags with
    | some err => (err, s)
    | none =>
      let cost0 : CommandCost := ⟨false, StringID.generic, spec.clearCost * ta.w * ta.h⟩
      let cost1 := if spec.clearIncome then { cost0 with cost := -cost0.cost } else cost0
      let step :=
        match type with
        | ObjectType.hq =>
            let cown := (s.tiles tile).owner
            let reset : Company := { s.companies cown with locationOfHQ := INVALID_TILE }
            let s' := if flags.exec then
                { s with companies := Function.update s.companies cown reset }
              else s
            ((⟨false, StringID.generic, (((s'.companies cown).value / 100 : Nat) : Int)⟩ :
                CommandCost), s')
        | ObjectType.statue =>
            if flags.exec then
              let tw : Town := { s.towns o.town with statues := clrBit (s.towns o.town).statues (s.tiles tile).owner }
              (cost1, { s with towns := Function.update s.towns o.town tw })
            else (cost1, s)
        | _ => (cost1, s)
      if flags.exec then
        let idx := (s.tiles tile).objIndex
        let s3 := { step.2 with counts := Function.update step.2.counts type (step.2.counts type - 1) }
        let s4 := (areaTiles s3.mapX ta).foldl (fun acc t => makeWaterKeepingClass acc t) s3
        (step.1, { s4 with objects := Function.update s4.objects idx none,
                           liveObjects := s4.liveObjects - 1 })
      else (step.1, step.2)

/-- The kind-specific `switch` of `CmdBuildObject`: either an early error, or
the HQ score together with the accumulated cost and the (possibly mutated)
state. `UpdateCompanyRatingAndValue` is external; modelled from the spec as
returning the company's stored performance score. -/
def cmdBuildSwitch (s0 : World) (tile : Nat) (flags : DoCommandFlag) (type : ObjectType)
    (cost1 : CommandCost) : CommandCost ⊕ (Nat × CommandCost × World) :=
  match type with
  | ObjectType.transmitter =>
      if (s0.tiles tile).slope ≠ 0 then Sum.inl (cmdErrorMsg StringID.flatLandRequired)
      else Sum.inr (0, cost1, s0)
  | ObjectType.lighthouse =>
      if (s0.tiles tile).slope ≠ 0 then Sum.inl (cmdErrorMsg StringID.flatLandRequired)
      else Sum.inr (0, cost1, s0)
  | ObjectType.ownedLand =>
      if (s0.tiles tile).ttype = TType.object ∧ (s0.tiles tile).owner = s0.currentCompany ∧
         (s0.tiles tile).objType = ObjectType.ownedLand
      then Sum.inl (cmdErrorMsg StringID.youAlreadyOwnIt)
      else Sum.inr (0, cost1, s0)
  | ObjectType.statue => Sum.inr (0, cost1, s0)
  | ObjectType.hq =>
      let c := s0.companies s0.currentCompany
      let relocated :=
        if c.locationOfHQ ≠ INVALID_TILE then
          let sW := { s0 with currentCompany := OWNER_WATER }
          let r := clearTile_Object sW c.locationOfHQ flags
          (cost1.addCost r.1, { r.2 with currentCompany := s0.currentCompany })
        else (cost1, s0)
      if flags.exec then
        let s1 := relocated.2
        let score := (s1.companies s1.currentCompany).performance
        let placed : Company := { s1.companies s1.currentCompany with locationOfHQ := tile }
        Sum.inr (score, relocated.1,
          { s1 with companies := Function.update s1.companies s1.currentCompany placed })
      else Sum.inr (0, relocated.1, relocated.2)

/-- `CmdBuildObject`: availability, phase, capacity and settlement checks,
the terrain check (generic land clear for owned land, flat-land check for
everything else), the kind-specific switch, then — only when committing —
the actual build, and finally the build cost of the footprint. -/
def cmdBuildObject (s0 : World) (tile : Nat) (flags : DoCommandFlag) (type : ObjectType) :
    CommandCost × World :=
  let spec := ObjectSpec.get type
  if spec.enabled = false then (cmdError, s0)
  else if spec.onlyInScenedit = true ∧
          (s0.gameMode ≠ GameMode.editor ∨ s0.currentCompany ≠ OWNER_NONE) then (cmdError, s0)
  else if spec.onlyInGame = true ∧
          (s0.gameMode ≠ GameMode.normal ∨ MAX_COMPANIES < s0.currentCompany) then (cmdError, s0)
  else if OBJECT_POOL_MAX ≤ s0.liveObjects then (cmdErrorMsg StringID.tooManyObjects, s0)
  else if s0.numTowns = 0 then (cmdErrorMsg StringID.mustFoundTownFirst, s0)
  else
    let ta : TileArea := ⟨tile, spec.sizeX, spec.sizeY⟩
    let cost1 :=
      if type = ObjectType.ownedLand
      then CommandCost.zero.addCost (doLandscapeClear s0 tile flags)
      else CommandCost.zero.addCost (checkFlatLand s0 ta flags)
    if cost1.failed then (cost1, s0)
    else
      match cmdBuildSwitch s0 tile flags type cost1 with
      | Sum.inl err => (err, s0)
      | Sum.inr res =>
        let s3 :=
          if flags.exec then
            let sB := buildObject res.2.2 type tile res.2.2.currentCompany none
            if type = ObjectType.hq then updateCompanyHQ sB tile res.1 else sB
          else res.2.2
        (res.2.1.addMoney (spec.buildCost * (spec.sizeX * spec.sizeY)), s3)

/-- `IsObjectType(t, OBJECT_TRANSMITTER)` — `IsTransmitterTile`. -/
def isTransmitterTile (s : World) (t : Nat) : Bool :=
  (s.tiles t).ttype = TType.object ∧ (s.tiles t).objType = ObjectType.transmitter

/-- `IsRadioTowerNearby`: scan the 9x9 square around the tile, clipped to the
map bounds, for a transmitter. (The source computes the clip with unsigned
arithmetic; the model's truncating subtraction agrees on in-map tiles.) -/
def isRadioTowerNearby (s : World) (tile : Nat) : Bool :=
  let tx := tileXc s.mapX tile
  let ty := tileYc s.mapX tile
  let dx := min tx 4
  let dy := min ty 4
  let tileS := tile - (dy * s.mapX + dx)
  let w := dx + 1 + min ((s.mapX - 1) - tx) 4
  let h := dy + 1 + min ((s.mapY - 1) - ty) 4
  ((List.range h).flatMap fun yy => (List.range w).map fun xx => tileS + yy * s.mapX + xx).any
    (fun t => isTransmitterTile s t)

/-- The radio-tower candidate filter of `GenerateObjects`: plain clear tile,
exactly flat, at or above four height levels, no bridge above. -/
def radioTowerCandidateOK (s : World) (t : Nat) : Bool :=
  (s.tiles t).ttype = TType.clear ∧ (s.tiles t).slope = 0 ∧
  TILE_HEIGHT * 4 ≤ (s.tiles t).height ∧ (s.tiles t).bridgeAbove = false

/-- The radio-tower pass of `GenerateObjects`. The candidate list stands for
the stream of `RandomTile()` draws, one per attempt of the bounded loop; the
counter is the signed `radiotower_to_build`, decremented on each build with
an early break exactly when it reaches zero. -/
def generateRadioTowers : World → List Nat → Int → World
  | s, [], _ => s
  | s, t :: rest, n =>
      if radioTowerCandidateOK s t = true ∧ isRadioTowerNearby s t = false then
        let s' := buildObject s ObjectType.transmitter t OWNER_NONE none
        if n - 1 = 0 then s' else generateRadioTowers s' rest (n - 1)
      else generateRadioTowers s rest n

/-- Modelled from the spec: `ScaleByMapSize1D` (not under src/) scales a
quantity with the map's linear size relative to the default 256+256. -/
def scaleByMapSize1D (s : World) (n : Nat) : Nat := n * (s.mapX + s.mapY) / 512

/-- The border water scan of `GenerateObjects`' lighthouse pass: the four
border lines at x-rows 1 and `MapMaxY()-1` and y-columns 1 and
`MapMaxX()-1`, exactly over the source's loop ranges. -/
def numWaterBorderTiles (s : World) : Nat :=
  ((List.range (s.mapX - 1)).countP fun x => (s.tiles (tileXY s.mapX x 1)).ttype = TType.water)
  + ((List.range (s.mapX - 1)).countP fun x =>
      (s.tiles (tileXY s.mapX x (s.mapY - 1 - 1))).ttype = TType.water)
  + ((List.range' 1 (s.mapY - 1 - 2)).countP fun y =>
      (s.tiles (tileXY s.mapX 1 y)).ttype = TType.water)
  + ((List.range' 1 (s.mapY - 1 - 2)).countP fun y =>
      (s.tiles (tileXY s.mapX (s.mapX - 1 - 1) y)).ttype = TType.water)

/-- The lighthouse target count of `GenerateObjects` (lines 431-447): zero in
the tropic theme, otherwise a linear-size-scaled random base, additionally
scaled by the border water fraction when `freeform_edges` is set and the
base is non-zero. The divisor is the border cell count
`2*MapMaxY() + 2*MapMaxX() - 6`. `r` is the `Random()` draw. -/
def lighthousesToBuild (s : World) (r : Nat) : Nat :=
  if s.landscape = Landscape.tropic then 0
  else
    let base := scaleByMapSize1D s ((r &&& 3) + 7)
    if s.freeformEdges = true ∧ base ≠ 0 then
      base * numWaterBorderTiles s / (2 * (s.mapY - 1) + 2 * (s.mapX - 1) - 6)
    else base

/-- Following the spec's words (claim C9): the lighthouse target is the
linear-border-size-scaled base and, exactly when the edge setting selects
the scanned ("hard-edged") polarity, it is multiplied by the fraction of
border cells that are water, estimated from the four border lines. -/
def lighthouseTargetSpec (s : World) (r : Nat) : Nat :=
  let base := scaleByMapSize1D s ((r &&& 3) + 7)
  if s.freeformEdges = true then
    base * numWaterBorderTiles s / (2 * (s.mapY - 1) + 2 * (s.mapX - 1) - 6)
  else base

/-- Terrain-or-water classification of a cell, the observable that the
build/clear round trip must restore. -/
inductive SurfaceClass
  | land
  | waterOf (wc : WaterClass)
  | occupied
  | voidc
deriving DecidableEq

/-- Classify a cell: bare/ordinary terrain, water with its class, occupied by
an object, or void. -/
def classify (c : Cell) : SurfaceClass :=
  match c.ttype with
  | TType.clear => SurfaceClass.land
  | TType.other => SurfaceClass.land
  | TType.water => SurfaceClass.waterOf c.wc
  | TType.object => SurfaceClass.occupied
  | TType.voidT => SurfaceClass.voidc

/-- Following the spec's words (claim C7): the permission ladder, first match
wins, over abstract readings of the context: a force context always passes;
a kind disallowing automatic removal fails an automatic request with "in the
way"; world-creation mode passes; an unowned cell requires the bulldozer
privilege; a non-owning caller fails with "owned by another party"; a kind
disallowing automatic removal fails for a caller without the privilege. -/
def specClearLadder (force : Bool) (noAutoRemove : Bool) (autoRequest : Bool)
    (editorMode : Bool) (cellUnowned : Bool) (bulldozer : Bool) (callerOwns : Bool)
    (inTheWayErr : CommandCost) : Option CommandCost :=
  if force then none
  else if noAutoRemove && autoRequest then some inTheWayErr
  else if editorMode then none
  else if cellUnowned then (if bulldozer then none else some cmdError)
  else if !callerOwns then some (cmdErrorMsg StringID.ownedBy)
  else if noAutoRemove && !bulldozer then some cmdError
  else none

/-- Chebyshev adjacency within distance 4 of two coordinate pairs, the
exclusion zone of the radio-tower pass. -/
def nearCoord (a b : Nat) : Prop := a ≤ b + 4 ∧ b ≤ a + 4

instance (a b : Nat) : Decidable (nearCoord a b) := by
  unfold nearCoord; infer_instance

/-- No two distinct in-map transmitter tiles lie within a 9x9 neighborhood
of each other. -/
def radioSeparated (s : World) : Prop :=
  ∀ t1, t1 < s.mapX * s.mapY → ∀ t2, t2 < s.mapX * s.mapY →
    isTransmitterTile s t1 = true → isTransmitterTile s t2 = true → t1 ≠ t2 →
    ¬ (nearCoord (tileXc s.mapX t1) (tileXc s.mapX t2) ∧
       nearCoord (tileYc s.mapX t1) (tileYc s.mapX t2))

instance (s : World) : Decidable (radioSeparated s) := by
  unfold radioSeparated
  exact Nat.decidableBallLT _ _

/-- A small all-clear editor world used by several witnesses. -/
def w0 : World :=
  { mapX := 8, mapY := 8
    tiles := fun _ => { ttype := TType.clear, slope := 0, height := 32, bridgeAbove := false,
                        owner := OWNER_NONE, objType := ObjectType.transmitter, objIndex := 0,
                        wc := WaterClass.invalid, frame := 0, randomBits := 0 }
    objects := fun _ => none
    nextObjectId := 0, liveObjects := 0
    counts := fun _ => 0
    companies := fun _ => { locationOfHQ := INVALID_TILE, value := 0, performance := 0 }
    towns := fun _ => { statues := 0 }
    numTowns := 1, currentCompany := OWNER_NONE, gameMode := GameMode.editor
    landscape := Landscape.temperate, freeformEdges := false, magicBulldozer := false
    date := 0, randSeed := 0, closestTown := fun _ => 0 }

/-- A concrete normal-play world with one 2x2 company head office at tile 0
(cells 0, 1, 8, 9), owned by company 0, and clear flat land elsewhere. -/
def w1 : World :=
  { mapX := 8, mapY := 8
    tiles := fun t =>
      if t = 0 ∨ t = 1 ∨ t = 8 ∨ t = 9 then
        { ttype := TType.object, slope := 0, height := 32, bridgeAbove := false,
          owner := 0, objType := ObjectType.hq, objIndex := 0,
          wc := WaterClass.invalid, frame := 0, randomBits := 0 }
      else
        { ttype := TType.clear, slope := 0, height := 32, bridgeAbove := false,
          owner := OWNER_NONE, objType := ObjectType.transmitter, objIndex := 0,
          wc := WaterClass.invalid, frame := 0, randomBits := 0 }
    objects := fun i => if i = 0 then some ⟨⟨0, 2, 2⟩, 0, 0⟩ else none
    nextObjectId := 1, liveObjects := 1
    counts := fun ty => if ty = ObjectType.hq then 1 else 0
    companies := fun _ => { locationOfHQ := 0, value := 1000, performance := 0 }
    towns := fun _ => { statues := 0 }
    numTowns := 1, currentCompany := 0, gameMode := GameMode.normal
    landscape := Landscape.temperate, freeformEdges := false, magicBulldozer := false
    date := 0, randSeed := 0, closestTown := fun _ => 0 }

/-- The all-clear editor world with the object pool full: the live-object
total is at the pool maximum, all of it of the transmitter kind. -/
def w2 : World :=
  { w0 with liveObjects := OBJECT_POOL_MAX
            counts := fun ty => if ty = ObjectType.transmitter then OBJECT_POOL_MAX else 0 }

/-- The pool-full world during normal play (company 0 acting). -/
def w2n : World :=
  { w2 with gameMode := GameMode.normal, currentCompany := 0 }

/-- The extra validation-time charge of a head-office build that forces the
clearing of the company's existing head office: the cost returned by that
forced `ClearTile_Object` call (1% of the owning company's value for a
well-formed head-office cell); zero for every other kind or when the company
has no head office yet. -/
def hqRelocCost (s : World) (flags : DoCommandFlag) (type : ObjectType) : Int :=
  if type = ObjectType.hq ∧ (s.companies s.currentCompany).locationOfHQ ≠ INVALID_TILE then
    (clearTile_Object { s with currentCompany := OWNER_WATER }
      (s.companies s.currentCompany).locationOfHQ flags).1.cost
  else 0

/-- Two worlds agree on everything except the map array and the random seed
(the only components a tile-stamping loop may touch). -/
def tilesOnly (a b : World) : Prop :=
  b = { a with tiles := b.tiles, randSeed := b.randSeed }

/-- The stamped-cell facts established by `MakeObject` independently of the
prior cell: kind tag, object id, owner, cleared animation frame. -/
def stampedCore (ty : ObjectType) (ow oid : Nat) (c : Cell) : Prop :=
  c.ttype = TType.object ∧ c.objType = ty ∧ c.objIndex = oid ∧ c.owner = ow ∧ c.frame = 0

/-- The stamped-cell facts when the cell was not water at stamp time: the
core facts plus an invalid stored water class. -/
def stampedFull (ty : ObjectType) (ow oid : Nat) (c : Cell) : Prop :=
  stampedCore ty ow oid c ∧ c.wc = WaterClass.invalid

/-- Two cells agree on everything except the animation frame. -/
def frameOnlyCell (c d : Cell) : Prop :=
  d.ttype = c.ttype ∧ d.slope = c.slope ∧ d.height = c.height ∧
  d.bridgeAbove = c.bridgeAbove ∧ d.owner = c.owner ∧ d.objType = c.objType ∧
  d.objIndex = c.objIndex ∧ d.wc = c.wc ∧ d.randomBits = c.randomBits

/-! ### Basic lemmas -/

theorem tilesOnly_refl (a : World) : tilesOnly a a := rfl

theorem tilesOnly_trans {a b c : World} (h1 : tilesOnly a b) (h2 : tilesOnly b c) :
    tilesOnly a c := by
  unfold tilesOnly at *
  rw [h2, h1]

theorem tilesOnly_objects {a b : World} (h : tilesOnly a b) : b.objects = a.objects := by
  rw [h]

theorem tilesOnly_counts {a b : World} (h : tilesOnly a b) : b.counts = a.counts := by
  rw [h]

theorem tilesOnly_mapX {a b : World} (h : tilesOnly a b) : b.mapX = a.mapX := by
  rw [h]

theorem tilesOnly_mapY {a b : World} (h : tilesOnly a b) : b.mapY = a.mapY := by
  rw [h]

theorem tilesOnly_companies {a b : World} (h : tilesOnly a b) : b.companies = a.companies := by
  rw [h]

theorem tilesOnly_towns {a b : World} (h : tilesOnly a b) : b.towns = a.towns := by
  rw [h]

theorem tilesOnly_nextObjectId {a b : World} (h : tilesOnly a b) :
    b.nextObjectId = a.nextObjectId := by
  rw [h]

theorem tilesOnly_liveObjects {a b : World} (h : tilesOnly a b) :
    b.liveObjects = a.liveObjects := by
  rw [h]

theorem tilesOnly_currentCompany {a b : World} (h : tilesOnly a b) :
    b.currentCompany = a.currentCompany := by
  rw [h]

theorem foldl_tiles_not_mem (f : World → Nat → World)
    (hf : ∀ s u v, v ≠ u → (f s u).tiles v = s.tiles v) :
    ∀ (l : List Nat) (s : World) (t : Nat), t ∉ l → ((l.foldl f s).tiles t) = s.tiles t := by
  intro l
  induction l with
  | nil => intro s t _; rfl
  | cons u l ih =>
      intro s t ht
      have h1 : t ≠ u := fun he => ht (he ▸ List.mem_cons_self u l)
      have h2 : t ∉ l := fun hm => ht (List.mem_cons_of_mem u hm)
      simp only [List.foldl_cons]
      rw [ih (f s u) t h2, hf s u t h1]

theorem foldl_tiles_invariant (f : World → Nat → World) (P : Cell → Prop)
    (hf : ∀ s u v, v ≠ u → (f s u).tiles v = s.tiles v)
    (hstep : ∀ s u, P (s.tiles u) → P ((f s u).tiles u)) :
    ∀ (l : List Nat) (s : World) (t : Nat), P (s.tiles t) → P ((l.foldl f s).tiles t) := by
  intro l
  induction l with
  | nil => intro s t h; exact h
  | cons u l ih =>
      intro s t h
      simp only [List.foldl_cons]
      apply ih
      by_cases he : t = u
      · subst he; exact hstep s t h
      · rw [hf s u t he]; exact h

theorem foldl_tilesOnly (f : World → Nat → World)
    (hf : ∀ s u, tilesOnly s (f s u)) :
    ∀ (l : List Nat) (s : World), tilesOnly s (l.foldl f s) := by
  intro l
  induction l with
  | nil => intro s; exact tilesOnly_refl s
  | cons u l ih =>
      intro s
      simp only [List.foldl_cons]
      exact tilesOnly_trans (hf s u) (ih (f s u))

theorem frameOnlyCell_refl (c : Cell) : frameOnlyCell c c :=
  ⟨rfl, rfl, rfl, rfl, rfl, rfl, rfl, rfl, rfl⟩

theorem frameOnlyCell_trans {a b c : Cell} (h1 : frameOnlyCell a b) (h2 : frameOnlyCell b c) :
    frameOnlyCell a c := by
  unfold frameOnlyCell at *
  exact ⟨h2.1.trans h1.1, h2.2.1.trans h1.2.1, h2.2.2.1.trans h1.2.2.1,
         h2.2.2.2.1.trans h1.2.2.2.1, h2.2.2.2.2.1.trans h1.2.2.2.2.1,
         h2.2.2.2.2.2.1.trans h1.2.2.2.2.2.1, h2.2.2.2.2.2.2.1.trans h1.2.2.2.2.2.2.1,
         h2.2.2.2.2.2.2.2.1.trans h1.2.2.2.2.2.2.2.1, h2.2.2.2.2.2.2.2.2.trans h1.2.2.2.2.2.2.2.2⟩

theorem foldl_frameOnly (f : World → Nat → World)
    (hf : ∀ s u v, frameOnlyCell (s.tiles v) ((f s u).tiles v)) :
    ∀ (l : List Nat) (s : World) (v : Nat),
      frameOnlyCell (s.tiles v) ((l.foldl f s).tiles v) := by
  intro l
  induction l with
  | nil => intro s v; exact frameOnlyCell_refl _
  | cons u l ih =>
      intro s v
      simp only [List.foldl_cons]
      exact frameOnlyCell_trans (hf s u v) (ih (f s u) v)

/-! Stamping lemmas (`BuildObject`'s tile loop). -/

theorem stampTile_tiles_ne (ty : ObjectType) (ow oid : Nat) (s : World) (u v : Nat)
    (h : v ≠ u) : (stampTile ty ow oid s u).tiles v = s.tiles v := by
  unfold stampTile makeObject randomDraw
  exact Function.update_noteq h _ _

theorem stampTile_tilesOnly (ty : ObjectType) (ow oid : Nat) (s : World) (u : Nat) :
    tilesOnly s (stampTile ty ow oid s u) := rfl

theorem stampTile_core_self (ty : ObjectType) (ow oid : Nat) (s : World) (u : Nat) :
    stampedCore ty ow oid ((stampTile ty ow oid s u).tiles u) := by
  unfold stampTile makeObject randomDraw stampedCore
  simp [Function.update_same]

theorem stampTile_full_self (ty : ObjectType) (ow oid : Nat) (s : World) (u : Nat)
    (h : (s.tiles u).ttype ≠ TType.water) :
    stampedFull ty ow oid ((stampTile ty ow oid s u).tiles u) := by
  unfold stampTile makeObject randomDraw stampedFull stampedCore
  simp [Function.update_same, h]

theorem stampFold_core_mem (ty : ObjectType) (ow oid : Nat) :
    ∀ (l : List Nat) (s : World) (t : Nat), t ∈ l →
      stampedCore ty ow oid ((l.foldl (stampTile ty ow oid) s).tiles t) := by
  intro l
  induction l with
  | nil => intro s t ht; cases ht
  | cons u l ih =>
      intro s t ht
      simp only [List.foldl_cons]
      by_cases he : t = u
      · subst he
        exact foldl_tiles_invariant _ _ (stampTile_tiles_ne ty ow oid)
          (fun s' u' _ => stampTile_core_self ty ow oid s' u') l _ t
          (stampTile_core_self ty ow oid s t)
      · have ht' : t ∈ l := by
          cases List.mem_cons.mp ht with
          | inl h => exact absurd h he
          | inr h => exact h
        exact ih (stampTile ty ow oid s u) t ht'

theorem stampFold_full_mem (ty : ObjectType) (ow oid : Nat) :
    ∀ (l : List Nat) (s : World) (t : Nat), t ∈ l → (s.tiles t).ttype ≠ TType.water →
      stampedFull ty ow oid ((l.foldl (stampTile ty ow oid) s).tiles t) := by
  intro l
  induction l with
  | nil => intro s t ht _; cases ht
  | cons u l ih =>
      intro s t ht hw
      simp only [List.foldl_cons]
      by_cases he : t = u
      · subst he
        refine foldl_tiles_invariant _ _ (stampTile_tiles_ne ty ow oid)
          (fun s' u' hp => ?_) l _ t (stampTile_full_self ty ow oid s t hw)
        have hno : (s'.tiles u').ttype ≠ TType.water := by
          rw [hp.1.1]
          intro hcon
          cases hcon
        exact stampTile_full_self ty ow oid s' u' hno
      · have ht' : t ∈ l := by
          cases List.mem_cons.mp ht with
          | inl h => exact absurd h he
          | inr h => exact h
        have hw' : ((stampTile ty ow oid s u).tiles t).ttype ≠ TType.water := by
          rw [stampTile_tiles_ne ty ow oid s u t he]
          exact hw
        exact ih (stampTile ty ow oid s u) t ht' hw'

theorem clearTile_estimate_state (s : World) (tile : Nat) (flags : DoCommandFlag)
    (hf : flags.exec = false) : (clearTile_Object s tile flags).2 = s := by
  simp only [clearTile_Object, hf, Bool.false_eq_true, if_false]
  split
  · rfl
  · split
    · rfl
    · split <;> rfl

theorem cmdBuildSwitch_estimate_state (s : World) (tile : Nat) (flags : DoCommandFlag)
    (type : ObjectType) (cost1 : CommandCost) (hf : flags.exec = false)
    (res : Nat × CommandCost × World)
    (h : cmdBuildSwitch s tile flags type cost1 = Sum.inr res) : res.2.2 = s := by
  unfold cmdBuildSwitch at h
  cases type <;> simp only [hf, Bool.false_eq_true, if_false] at h
  case transmitter =>
    split at h
    · simp at h
    · cases h; rfl
  case lighthouse =>
    split at h
    · simp at h
    · cases h; rfl
  case ownedLand =>
    split at h
    · simp at h
    · cases h; rfl
  case statue => cases h; rfl
  case hq =>
    split at h
    · cases h
      show ({ (clearTile_Object { s with currentCompany := OWNER_WATER }
          (s.companies s.currentCompany).locationOfHQ flags).2 with
            currentCompany := s.currentCompany } : World) = s
      rw [clearTile_estimate_state _ _ _ hf]
    · cases h; rfl

theorem stampFold_tilesOnly (ty : ObjectType) (ow oid : Nat) :
    ∀ (l : List Nat) (s1 : World), tilesOnly s1 (l.foldl (stampTile ty ow oid) s1) :=
  fun l s1 => foldl_tilesOnly _ (fun s' u => stampTile_tilesOnly ty ow oid s' u) l s1

theorem stampFold_objects (ty : ObjectType) (ow oid : Nat) :
    ∀ (l : List Nat) (s1 : World), (l.foldl (stampTile ty ow oid) s1).objects = s1.objects :=
  fun l s1 => tilesOnly_objects (stampFold_tilesOnly ty ow oid l s1)

theorem stampFold_counts (ty : ObjectType) (ow oid : Nat) :
    ∀ (l : List Nat) (s1 : World), (l.foldl (stampTile ty ow oid) s1).counts = s1.counts :=
  fun l s1 => tilesOnly_counts (stampFold_tilesOnly ty ow oid l s1)

theorem stampFold_mapX (ty : ObjectType) (ow oid : Nat) :
    ∀ (l : List Nat) (s1 : World), (l.foldl (stampTile ty ow oid) s1).mapX = s1.mapX :=
  fun l s1 => tilesOnly_mapX (stampFold_tilesOnly ty ow oid l s1)

theorem stampFold_mapY (ty : ObjectType) (ow oid : Nat) :
    ∀ (l : List Nat) (s1 : World), (l.foldl (stampTile ty ow oid) s1).mapY = s1.mapY :=
  fun l s1 => tilesOnly_mapY (stampFold_tilesOnly ty ow oid l s1)

theorem stampFold_companies (ty : ObjectType) (ow oid : Nat) :
    ∀ (l : List Nat) (s1 : World), (l.foldl (stampTile ty ow oid) s1).companies = s1.companies :=
  fun l s1 => tilesOnly_companies (stampFold_tilesOnly ty ow oid l s1)

theorem stampFold_towns (ty : ObjectType) (ow oid : Nat) :
    ∀ (l : List Nat) (s1 : World), (l.foldl (stampTile ty ow oid) s1).towns = s1.towns :=
  fun l s1 => tilesOnly_towns (stampFold_tilesOnly ty ow oid l s1)

theorem stampFold_nextObjectId (ty : ObjectType) (ow oid : Nat) :
    ∀ (l : List Nat) (s1 : World),
      (l.foldl (stampTile ty ow oid) s1).nextObjectId = s1.nextObjectId :=
  fun l s1 => tilesOnly_nextObjectId (stampFold_tilesOnly ty ow oid l s1)

theorem stampFold_liveObjects (ty : ObjectType) (ow oid : Nat) :
    ∀ (l : List Nat) (s1 : World),
      (l.foldl (stampTile ty ow oid) s1).liveObjects = s1.liveObjects :=
  fun l s1 => tilesOnly_liveObjects (stampFold_tilesOnly ty ow oid l s1)

theorem stampFold_currentCompany (ty : ObjectType) (ow oid : Nat) :
    ∀ (l : List Nat) (s1 : World),
      (l.foldl (stampTile ty ow oid) s1).currentCompany = s1.currentCompany :=
  fun l s1 => tilesOnly_currentCompany (stampFold_tilesOnly ty ow oid l s1)

/-! Projections of `buildObject`. -/

theorem buildObject_objects (s : World) (ty : ObjectType) (tile ow : Nat) (tw : Option Nat) :
    (buildObject s ty tile ow tw).objects = Function.update s.objects s.nextObjectId
      (some { location := ⟨tile, (ObjectSpec.get ty).sizeX, (ObjectSpec.get ty).sizeY⟩,
              town := match tw with | none => s.closestTown tile | some x => x,
              buildDate := s.date }) := by
  unfold buildObject
  simp only [stampFold_objects]

theorem buildObject_counts (s : World) (ty : ObjectType) (tile ow : Nat) (tw : Option Nat) :
    (buildObject s ty tile ow tw).counts = Function.update s.counts ty (s.counts ty + 1) := by
  unfold buildObject
  simp only [stampFold_counts]

theorem buildObject_mapX (s : World) (ty : ObjectType) (tile ow : Nat) (tw : Option Nat) :
    (buildObject s ty tile ow tw).mapX = s.mapX := by
  unfold buildObject
  simp only [stampFold_mapX]

theorem buildObject_mapY (s : World) (ty : ObjectType) (tile ow : Nat) (tw : Option Nat) :
    (buildObject s ty tile ow tw).mapY = s.mapY := by
  unfold buildObject
  simp only [stampFold_mapY]

theorem buildObject_companies (s : World) (ty : ObjectType) (tile ow : Nat) (tw : Option Nat) :
    (buildObject s ty tile ow tw).companies = s.companies := by
  unfold buildObject
  simp only [stampFold_companies]

theorem buildObject_towns (s : World) (ty : ObjectType) (tile ow : Nat) (tw : Option Nat) :
    (buildObject s ty tile ow tw).towns = s.towns := by
  unfold buildObject
  simp only [stampFold_towns]

theorem buildObject_nextObjectId (s : World) (ty : ObjectType) (tile ow : Nat) (tw : Option Nat) :
    (buildObject s ty tile ow tw).nextObjectId = s.nextObjectId + 1 := by
  unfold buildObject
  simp only [stampFold_nextObjectId]

theorem buildObject_liveObjects (s : World) (ty : ObjectType) (tile ow : Nat) (tw : Option Nat) :
    (buildObject s ty tile ow tw).liveObjects = s.liveObjects + 1 := by
  unfold buildObject
  simp only [stampFold_liveObjects]

theorem buildObject_currentCompany (s : World) (ty : ObjectType) (tile ow : Nat)
    (tw : Option Nat) : (buildObject s ty tile ow tw).currentCompany = s.currentCompany := by
  unfold buildObject
  simp only [stampFold_currentCompany]

theorem buildObject_tiles_not_mem (s : World) (ty : ObjectType) (tile ow : Nat)
    (tw : Option Nat) (t : Nat)
    (ht : t ∉ areaTiles s.mapX ⟨tile, (ObjectSpec.get ty).sizeX, (ObjectSpec.get ty).sizeY⟩) :
    (buildObject s ty tile ow tw).tiles t = s.tiles t := by
  unfold buildObject
  exact (foldl_tiles_not_mem _ (stampTile_tiles_ne ty ow s.nextObjectId) _ _ t ht).trans rfl

theorem buildObject_core_mem (s : World) (ty : ObjectType) (tile ow : Nat) (tw : Option Nat)
    (t : Nat)
    (ht : t ∈ areaTiles s.mapX ⟨tile, (ObjectSpec.get ty).sizeX, (ObjectSpec.get ty).sizeY⟩) :
    stampedCore ty ow s.nextObjectId ((buildObject s ty tile ow tw).tiles t) := by
  unfold buildObject
  exact stampFold_core_mem ty ow s.nextObjectId _ _ t ht

theorem buildObject_full_mem (s : World) (ty : ObjectType) (tile ow : Nat) (tw : Option Nat)
    (t : Nat)
    (ht : t ∈ areaTiles s.mapX ⟨tile, (ObjectSpec.get ty).sizeX, (ObjectSpec.get ty).sizeY⟩)
    (hw : (s.tiles t).ttype ≠ TType.water) :
    stampedFull ty ow s.nextObjectId ((buildObject s ty tile ow tw).tiles t) := by
  unfold buildObject
  exact stampFold_full_mem ty ow s.nextObjectId _ _ t ht hw

/-! The clear-time restore loop (`MakeWaterKeepingClass` over the area). -/

theorem makeWaterKeepingClass_tilesOnly (s : World) (t : Nat) :
    tilesOnly s (makeWaterKeepingClass s t) := by
  simp only [makeWaterKeepingClass]
  by_cases hc : (s.tiles t).wc = WaterClass.invalid
  · rw [if_pos hc]; exact rfl
  · rw [if_neg hc]; exact rfl

theorem makeWaterKeepingClass_tiles_ne (s : World) (u v : Nat) (h : v ≠ u) :
    (makeWaterKeepingClass s u).tiles v = s.tiles v := by
  simp only [makeWaterKeepingClass]
  by_cases hc : (s.tiles u).wc = WaterClass.invalid
  · rw [if_pos hc]; exact Function.update_noteq h _ _
  · rw [if_neg hc]; exact Function.update_noteq h _ _

theorem restoreFold_tilesOnly :
    ∀ (l : List Nat) (s : World),
      tilesOnly s (l.foldl (fun acc t => makeWaterKeepingClass acc t) s) :=
  foldl_tilesOnly _ (fun s u => makeWaterKeepingClass_tilesOnly s u)

theorem restoreFold_nextObjectId :
    ∀ (l : List Nat) (s : World),
      (l.foldl (fun acc t => makeWaterKeepingClass acc t) s).nextObjectId = s.nextObjectId :=
  fun l s => tilesOnly_nextObjectId (restoreFold_tilesOnly l s)

theorem restoreFold_mapX :
    ∀ (l : List Nat) (s : World),
      (l.foldl (fun acc t => makeWaterKeepingClass acc t) s).mapX = s.mapX :=
  fun l s => tilesOnly_mapX (restoreFold_tilesOnly l s)

theorem restoreFold_counts :
    ∀ (l : List Nat) (s : World),
      (l.foldl (fun acc t => makeWaterKeepingClass acc t) s).counts = s.counts :=
  fun l s => tilesOnly_counts (restoreFold_tilesOnly l s)

/-! Projections of `clearTile_Object`. -/

theorem clearTile_nextObjectId (s : World) (tile : Nat) (flags : DoCommandFlag) :
    (clearTile_Object s tile flags).2.nextObjectId = s.nextObjectId := by
  unfold clearTile_Object
  cases hobj : s.objects ((s.tiles tile).objIndex)
  case none => simp only [hobj]
  case some o =>
    simp only [hobj]
    cases hp : clearPermissionCheck s tile ((s.tiles tile).objType)
        (ObjectSpec.get ((s.tiles tile).objType)) flags
    case some err => simp only [hp]
    case none =>
      simp only [hp]
      cases hex : flags.exec <;>
        simp only [hex, Bool.false_eq_true, if_false, if_true, restoreFold_nextObjectId] <;>
        split <;> rfl

theorem clearTile_mapX (s : World) (tile : Nat) (flags : DoCommandFlag) :
    (clearTile_Object s tile flags).2.mapX = s.mapX := by
  unfold clearTile_Object
  cases hobj : s.objects ((s.tiles tile).objIndex)
  case none => simp only [hobj]
  case some o =>
    simp only [hobj]
    cases hp : clearPermissionCheck s tile ((s.tiles tile).objType)
        (ObjectSpec.get ((s.tiles tile).objType)) flags
    case some err => simp only [hp]
    case none =>
      simp only [hp]
      cases hex : flags.exec <;>
        simp only [hex, Bool.false_eq_true, if_false, if_true, restoreFold_mapX] <;>
        split <;> rfl

/-! Projections of the kind switch of `CmdBuildObject`. -/

theorem cmdBuildSwitch_inl_failed (s : World) (tile : Nat) (flags : DoCommandFlag)
    (type : ObjectType) (cost1 : CommandCost) (err : CommandCost)
    (h : cmdBuildSwitch s tile flags type cost1 = Sum.inl err) : err.failed = true := by
  unfold cmdBuildSwitch at h
  cases type <;> simp only [] at h
  case transmitter =>
    split at h
    · cases h; rfl
    · simp at h
  case lighthouse =>
    split at h
    · cases h; rfl
    · simp at h
  case ownedLand =>
    split at h
    · cases h; rfl
    · simp at h
  case statue => simp at h
  case hq =>
    split at h <;> simp at h

theorem cmdBuildSwitch_inr_nextObjectId (s : World) (tile : Nat) (flags : DoCommandFlag)
    (type : ObjectType) (cost1 : CommandCost) (res : Nat × CommandCost × World)
    (h : cmdBuildSwitch s tile flags type cost1 = Sum.inr res) :
    res.2.2.nextObjectId = s.nextObjectId := by
  unfold cmdBuildSwitch at h
  cases type <;> simp only [] at h
  case transmitter =>
    split at h
    · simp at h
    · cases h; rfl
  case lighthouse =>
    split at h
    · simp at h
    · cases h; rfl
  case ownedLand =>
    split at h
    · simp at h
    · cases h; rfl
  case statue => cases h; rfl
  case hq =>
    split at h <;> split at h <;> cases h <;>
      simp [clearTile_nextObjectId]

theorem cmdBuildSwitch_inr_mapX (s : World) (tile : Nat) (flags : DoCommandFlag)
    (type : ObjectType) (cost1 : CommandCost) (res : Nat × CommandCost × World)
    (h : cmdBuildSwitch s tile flags type cost1 = Sum.inr res) :
    res.2.2.mapX = s.mapX := by
  unfold cmdBuildSwitch at h
  cases type <;> simp only [] at h
  case transmitter =>
    split at h
    · simp at h
    · cases h; rfl
  case lighthouse =>
    split at h
    · simp at h
    · cases h; rfl
  case ownedLand =>
    split at h
    · simp at h
    · cases h; rfl
  case statue => cases h; rfl
  case hq =>
    split at h <;> split at h <;> cases h <;>
      simp [clearTile_mapX]

/-! Frame-only preservation through `UpdateCompanyHQ`. -/

theorem increase_tilesOnly (s : World) (tile : Nat) :
    tilesOnly s (increaseAnimationStage s tile) := by
  unfold increaseAnimationStage
  split
  · exact tilesOnly_refl s
  · refine foldl_tilesOnly _ (fun s' u => ?_) _ s
    exact rfl

theorem increase_frameOnly (s : World) (tile v : Nat) :
    frameOnlyCell (s.tiles v) ((increaseAnimationStage s tile).tiles v) := by
  unfold increaseAnimationStage
  split
  · exact frameOnlyCell_refl _
  · refine foldl_frameOnly _ (fun s' u w => ?_) _ s v
    by_cases he : w = u
    · subst he
      simp only [Function.update_same]
      exact ⟨rfl, rfl, rfl, rfl, rfl, rfl, rfl, rfl, rfl⟩
    · simp only [Function.update_noteq he]
      exact frameOnlyCell_refl _

theorem hqGrowLoop_tilesOnly :
    ∀ (fuel : Nat) (s : World) (tile val : Nat), tilesOnly s (hqGrowLoop fuel s tile val) := by
  intro fuel
  induction fuel with
  | zero => intro s tile val; exact tilesOnly_refl s
  | succ n ih =>
      intro s tile val
      unfold hqGrowLoop
      split
      · exact tilesOnly_trans (increase_tilesOnly s tile) (ih _ tile val)
      · exact tilesOnly_refl s

theorem hqGrowLoop_frameOnly :
    ∀ (fuel : Nat) (s : World) (tile val v : Nat),
      frameOnlyCell (s.tiles v) ((hqGrowLoop fuel s tile val).tiles v) := by
  intro fuel
  induction fuel with
  | zero => intro s tile val v; exact frameOnlyCell_refl _
  | succ n ih =>
      intro s tile val v
      unfold hqGrowLoop
      split
      · exact frameOnlyCell_trans (increase_frameOnly s tile v) (ih _ tile val v)
      · exact frameOnlyCell_refl _

theorem updateCompanyHQ_tilesOnly (s : World) (tile score : Nat) :
    tilesOnly s (updateCompanyHQ s tile score) := by
  unfold updateCompanyHQ
  split
  · exact tilesOnly_refl s
  · exact hqGrowLoop_tilesOnly 8 s tile (hqTargetLevel score)

theorem updateCompanyHQ_frameOnly (s : World) (tile score v : Nat) :
    frameOnlyCell (s.tiles v) ((updateCompanyHQ s tile score).tiles v) := by
  unfold updateCompanyHQ
  split
  · exact frameOnlyCell_refl _
  · exact hqGrowLoop_frameOnly 8 s tile (hqTargetLevel score) v

/-! Control-flow shape of `CmdBuildObject`: either it failed, or the terrain
check succeeded, the kind switch produced a result, and the returned cost and
state have the build's final form. -/

theorem cmdBuildObject_shape (s : World) (tile : Nat) (flags : DoCommandFlag)
    (type : ObjectType) :
    (cmdBuildObject s tile flags type).1.failed = true ∨
    ((if type = ObjectType.ownedLand
      then CommandCost.zero.addCost (doLandscapeClear s tile flags)
      else CommandCost.zero.addCost (checkFlatLand s
          ⟨tile, (ObjectSpec.get type).sizeX, (ObjectSpec.get type).sizeY⟩ flags)).failed = false ∧
     ∃ res : Nat × CommandCost × World,
       cmdBuildSwitch s tile flags type
         (if type = ObjectType.ownedLand
          then CommandCost.zero.addCost (doLandscapeClear s tile flags)
          else CommandCost.zero.addCost (checkFlatLand s
              ⟨tile, (ObjectSpec.get type).sizeX, (ObjectSpec.get type).sizeY⟩ flags))
         = Sum.inr res ∧
       cmdBuildObject s tile flags type =
         (res.2.1.addMoney ((ObjectSpec.get type).buildCost *
            ((ObjectSpec.get type).sizeX * (ObjectSpec.get type).sizeY)),
          if flags.exec then
            (if type = ObjectType.hq
             then updateCompanyHQ (buildObject res.2.2 type tile res.2.2.currentCompany none)
                    tile res.1
             else buildObject res.2.2 type tile res.2.2.currentCompany none)
          else res.2.2)) := by
  simp only [cmdBuildObject]
  split
  · exact Or.inl rfl
  · split
    · exact Or.inl rfl
    · split
      · exact Or.inl rfl
      · split
        · exact Or.inl rfl
        · split
          · exact Or.inl rfl
          · split
            all_goals
              split
              · rename_i hfail
                exact Or.inl hfail
              · rename_i hok
                split
                · rename_i err heq
                  exact Or.inl (cmdBuildSwitch_inl_failed s tile flags type _ err heq)
                · rename_i res heq
                  exact Or.inr ⟨by simpa using hok, res, heq, rfl⟩

/-! ### Claim C1: estimate mode leaves the whole world state unchanged -/

/-- Claim C1: for every object kind, target cell and world state, a Build
call without the commit flag (estimate mode) leaves the entire shared state
— object registry, per-cell occupancy, live counts, company and town
records — exactly as it was, whatever the outcome. -/
theorem c1_build_estimate_pure (s : World) (tile : Nat) (flags : DoCommandFlag)
    (type : ObjectType) (hf : flags.exec = false) :
    (cmdBuildObject s tile flags type).2 = s := by
  simp only [cmdBuildObject, hf, Bool.false_eq_true, if_false]
  split
  · rfl
  · split
    · rfl
    · split
      · rfl
      · split
        · rfl
        · split
          · rfl
          · split
            all_goals
              split
              · rfl
              · split
                · rfl
                · rename_i res h
                  exact cmdBuildSwitch_estimate_state s tile flags type _ hf res h


theorem c1_build_estimate_pure_witness :
    (⟨false, false⟩ : DoCommandFlag).exec = false ∧
    (cmdBuildObject w0 9 ⟨false, false⟩ ObjectType.transmitter).2 = w0 :=
  ⟨rfl, c1_build_estimate_pure w0 9 ⟨false, false⟩ ObjectType.transmitter rfl⟩

theorem frameOnlyCell_ttype {c d : Cell} (h : frameOnlyCell c d) : d.ttype = c.ttype := h.1

theorem frameOnlyCell_objIndex {c d : Cell} (h : frameOnlyCell c d) :
    d.objIndex = c.objIndex := h.2.2.2.2.2.2.1

theorem frameOnlyCell_wc {c d : Cell} (h : frameOnlyCell c d) : d.wc = c.wc :=
  h.2.2.2.2.2.2.2.1

/-! ### Claim C2: a committed Build stamps its whole rectangle -/

/-- Claim C2: after a Build committed with the commit flag succeeds, the new
Object (allocated under the pre-call fresh identifier) has its `location`
equal to the rectangle computed from the target cell and the kind's
footprint, and every cell of that rectangle is an object cell carrying the
new Object's identifier. -/
theorem c2_build_commit_occupancy (s : World) (tile : Nat) (auto : Bool) (type : ObjectType)
    (h : (cmdBuildObject s tile ⟨true, auto⟩ type).1.failed = false) :
    (∃ o, (cmdBuildObject s tile ⟨true, auto⟩ type).2.objects s.nextObjectId = some o ∧
       o.location = ⟨tile, (ObjectSpec.get type).sizeX, (ObjectSpec.get type).sizeY⟩) ∧
    (∀ t ∈ areaTiles s.mapX ⟨tile, (ObjectSpec.get type).sizeX, (ObjectSpec.get type).sizeY⟩,
      ((cmdBuildObject s tile ⟨true, auto⟩ type).2.tiles t).ttype = TType.object ∧
      ((cmdBuildObject s tile ⟨true, auto⟩ type).2.tiles t).objIndex = s.nextObjectId) := by
  rcases cmdBuildObject_shape s tile ⟨true, auto⟩ type with hfail | ⟨hterr, res, hsw, hcmd⟩
  · rw [h] at hfail
    cases hfail
  · have hnext := cmdBuildSwitch_inr_nextObjectId s tile ⟨true, auto⟩ type _ res hsw
    have hmx := cmdBuildSwitch_inr_mapX s tile ⟨true, auto⟩ type _ res hsw
    have hexec : (⟨true, auto⟩ : DoCommandFlag).exec = true := rfl
    rw [hcmd]
    dsimp only
    rw [if_pos hexec]
    have hOB : (if type = ObjectType.hq
        then updateCompanyHQ (buildObject res.2.2 type tile res.2.2.currentCompany none)
               tile res.1
        else buildObject res.2.2 type tile res.2.2.currentCompany none).objects =
        (buildObject res.2.2 type tile res.2.2.currentCompany none).objects := by
      split
      · exact tilesOnly_objects (updateCompanyHQ_tilesOnly _ tile res.1)
      · rfl
    have hcellp : ∀ t, frameOnlyCell
        ((buildObject res.2.2 type tile res.2.2.currentCompany none).tiles t)
        ((if type = ObjectType.hq
          then updateCompanyHQ (buildObject res.2.2 type tile res.2.2.currentCompany none)
                 tile res.1
          else buildObject res.2.2 type tile res.2.2.currentCompany none).tiles t) := by
      intro t
      split
      · exact updateCompanyHQ_frameOnly _ tile res.1 t
      · exact frameOnlyCell_refl _
    constructor
    · rw [hOB, buildObject_objects, hnext]
      exact ⟨_, Function.update_same _ _ _, rfl⟩
    · intro t ht
      rw [← hmx] at ht
      have hcore := buildObject_core_mem res.2.2 type tile res.2.2.currentCompany none t ht
      have hfo := hcellp t
      refine ⟨?_, ?_⟩
      · rw [frameOnlyCell_ttype hfo]
        exact hcore.1
      · rw [frameOnlyCell_objIndex hfo, hcore.2.2.1, hnext]

/-- Witness for C2: a committed transmitter build on the concrete world. -/
theorem c2_build_commit_occupancy_witness :
    (cmdBuildObject w0 9 ⟨true, false⟩ ObjectType.transmitter).1.failed = false ∧
    ((∃ o, (cmdBuildObject w0 9 ⟨true, false⟩ ObjectType.transmitter).2.objects
          w0.nextObjectId = some o ∧
        o.location = ⟨9, (ObjectSpec.get ObjectType.transmitter).sizeX,
          (ObjectSpec.get ObjectType.transmitter).sizeY⟩) ∧
     (∀ t ∈ areaTiles w0.mapX ⟨9, (ObjectSpec.get ObjectType.transmitter).sizeX,
          (ObjectSpec.get ObjectType.transmitter).sizeY⟩,
       ((cmdBuildObject w0 9 ⟨true, false⟩ ObjectType.transmitter).2.tiles t).ttype =
           TType.object ∧
       ((cmdBuildObject w0 9 ⟨true, false⟩ ObjectType.transmitter).2.tiles t).objIndex =
           w0.nextObjectId)) :=
  ⟨by decide, c2_build_commit_occupancy w0 9 false ObjectType.transmitter (by decide)⟩

/-! ### Claim C10: UpdateCompanyHQ on the invalid-tile sentinel -/

/-- Claim C10: calling UpdateCompanyHQ with the invalid-tile sentinel is a
no-op for every score: the state is returned unchanged. -/
theorem c10_updateCompanyHQ_invalid_noop (s : World) (score : Nat) :
    updateCompanyHQ s INVALID_TILE score = s := by
  unfold updateCompanyHQ
  simp

/-! ### Claim C6: head-office growth -/

theorem incFold_frame_not_mem :
    ∀ (l : List Nat) (s : World) (t : Nat), t ∉ l →
      ((l.foldl (fun acc u =>
          let c : Cell := { acc.tiles u with frame := ((acc.tiles u).frame + 1) % 256 }
          { acc with tiles := Function.update acc.tiles u c }) s).tiles t) = s.tiles t := by
  intro l s t ht
  exact foldl_tiles_not_mem _ (fun s' u v hv => Function.update_noteq hv _ _) l s t ht

theorem incFold_frame_mem :
    ∀ (l : List Nat) (s : World) (t : Nat), l.Nodup → t ∈ l →
      (((l.foldl (fun acc u =>
          let c : Cell := { acc.tiles u with frame := ((acc.tiles u).frame + 1) % 256 }
          { acc with tiles := Function.update acc.tiles u c }) s).tiles t).frame) =
        ((s.tiles t).frame + 1) % 256 := by
  intro l
  induction l with
  | nil => intro s t _ ht; cases ht
  | cons u l ih =>
      intro s t hnd ht
      have hu : u ∉ l := (List.nodup_cons.mp hnd).1
      have hnd' : l.Nodup := (List.nodup_cons.mp hnd).2
      simp only [List.foldl_cons]
      by_cases he : t = u
      · subst he
        rw [incFold_frame_not_mem l _ t hu]
        simp [Function.update_same]
      · have ht' : t ∈ l := by
          cases List.mem_cons.mp ht with
          | inl hh => exact absurd hh he
          | inr hh => exact hh
        rw [ih _ t hnd' ht']
        simp [Function.update_noteq he]

theorem increase_frame_mem (s : World) (tile : Nat) (o : ObjectRec)
    (hobj : s.objects ((s.tiles tile).objIndex) = some o)
    (hnd : (areaTiles s.mapX o.location).Nodup) :
    ∀ t ∈ areaTiles s.mapX o.location,
      ((increaseAnimationStage s tile).tiles t).frame = ((s.tiles t).frame + 1) % 256 := by
  intro t ht
  unfold increaseAnimationStage
  rw [hobj]
  exact incFold_frame_mem _ s t hnd ht

/-- One pass of the grow loop with uniform frames: the loop equals iterating
`IncreaseAnimationStage` exactly `val - f` times, and afterwards every
footprint cell stores `max f val`. -/
theorem hqGrowLoop_spec (o : ObjectRec) :
    ∀ (k fuel : Nat), k ≤ fuel → ∀ (s : World) (tile val f : Nat),
      s.objects ((s.tiles tile).objIndex) = some o →
      (areaTiles s.mapX o.location).Nodup →
      tile ∈ areaTiles s.mapX o.location →
      (∀ t ∈ areaTiles s.mapX o.location, (s.tiles t).frame = f) →
      k = val - f → val ≤ 4 →
      (hqGrowLoop fuel s tile val = (fun w => increaseAnimationStage w tile)^[k] s) ∧
      (∀ t ∈ areaTiles s.mapX o.location,
        ((hqGrowLoop fuel s tile val).tiles t).frame = max f val) := by
  intro k
  induction k with
  | zero =>
      intro fuel _ s tile val f hobj hnd hmem hf hk hv4
      have hfv : val ≤ f := by omega
      have hcond : ¬ ((s.tiles tile).frame < val) := by
        rw [hf tile hmem]
        omega
      have hstop : hqGrowLoop fuel s tile val = s := by
        cases fuel with
        | zero => rfl
        | succ n =>
            have hdef : hqGrowLoop (n + 1) s tile val =
                if (s.tiles tile).frame < val then
                  hqGrowLoop n (increaseAnimationStage s tile) tile val
                else s := rfl
            rw [hdef, if_neg hcond]
      refine ⟨by rw [hstop]; rfl, ?_⟩
      intro t ht
      rw [hstop, hf t ht]
      omega
  | succ k ih =>
      intro fuel hkf s tile val f hobj hnd hmem hf hk hv4
      have hflt : f < val := by omega
      cases fuel with
      | zero => omega
      | succ n =>
          have hcond : (s.tiles tile).frame < val := by
            rw [hf tile hmem]
            exact hflt
          have hdef : hqGrowLoop (n + 1) s tile val =
              if (s.tiles tile).frame < val then
                hqGrowLoop n (increaseAnimationStage s tile) tile val
              else s := rfl
          have hstep : hqGrowLoop (n + 1) s tile val =
              hqGrowLoop n (increaseAnimationStage s tile) tile val := by
            rw [hdef, if_pos hcond]
          have hobj' : (increaseAnimationStage s tile).objects
              (((increaseAnimationStage s tile).tiles tile).objIndex) = some o := by
            rw [tilesOnly_objects (increase_tilesOnly s tile),
                frameOnlyCell_objIndex (increase_frameOnly s tile tile)]
            exact hobj
          have hmx : (increaseAnimationStage s tile).mapX = s.mapX :=
            tilesOnly_mapX (increase_tilesOnly s tile)
          have hnd' : (areaTiles (increaseAnimationStage s tile).mapX o.location).Nodup := by
            rw [hmx]; exact hnd
          have hmem' : tile ∈ areaTiles (increaseAnimationStage s tile).mapX o.location := by
            rw [hmx]; exact hmem
          have hf' : ∀ t ∈ areaTiles (increaseAnimationStage s tile).mapX o.location,
              ((increaseAnimationStage s tile).tiles t).frame = f + 1 := by
            intro t ht
            rw [hmx] at ht
            rw [increase_frame_mem s tile o hobj hnd t ht, hf t ht]
            have : f + 1 < 256 := by omega
            exact Nat.mod_eq_of_lt this
          have hk' : k = val - (f + 1) := by omega
          obtain ⟨hit, hfr⟩ := ih n (by omega) (increaseAnimationStage s tile) tile val (f + 1)
            hobj' hnd' hmem' hf' hk' hv4
          constructor
          · rw [hstep, hit, Function.iterate_succ_apply]
          · intro t ht
            rw [hstep]
            have hmax : max (f + 1) val = max f val := by omega
            have ht' : t ∈ areaTiles (increaseAnimationStage s tile).mapX o.location := by
              rw [hmx]; exact ht
            rw [hfr t ht', hmax]

/-- Claim C6: for a head-office tile whose footprint cells share one stored
size level at most 4, `UpdateCompanyHQ` re-stamps every footprint cell with
`max current (target score)`: the level never decreases, never exceeds 4,
grows one level per `IncreaseAnimationStage` step (the call equals iterating
it `target - current` times), and the target level is given by the fixed
breakpoints 170/350/520/720; the target is monotone in the score, so levels
are non-decreasing across calls with non-decreasing scores. -/
theorem c6_hq_growth (s : World) (tile score : Nat) (o : ObjectRec) (f : Nat)
    (htile : tile ≠ INVALID_TILE)
    (hobj : s.objects ((s.tiles tile).objIndex) = some o)
    (hnd : (areaTiles s.mapX o.location).Nodup)
    (hmem : tile ∈ areaTiles s.mapX o.location)
    (hf : ∀ t ∈ areaTiles s.mapX o.location, (s.tiles t).frame = f)
    (hf4 : f ≤ 4) :
    (∀ t ∈ areaTiles s.mapX o.location,
        ((updateCompanyHQ s tile score).tiles t).frame = max f (hqTargetLevel score)) ∧
    hqTargetLevel score ≤ 4 ∧
    max f (hqTargetLevel score) ≤ 4 ∧
    f ≤ max f (hqTargetLevel score) ∧
    (∀ a b : Nat, a ≤ b → hqTargetLevel a ≤ hqTargetLevel b) ∧
    (score < 170 → hqTargetLevel score = 0) ∧
    (170 ≤ score → score < 350 → hqTargetLevel score = 1) ∧
    (350 ≤ score → score < 520 → hqTargetLevel score = 2) ∧
    (520 ≤ score → score < 720 → hqTargetLevel score = 3) ∧
    (720 ≤ score → hqTargetLevel score = 4) ∧
    updateCompanyHQ s tile score =
      (fun w => increaseAnimationStage w tile)^[hqTargetLevel score - f] s := by
  have hv4 : hqTargetLevel score ≤ 4 := by
    unfold hqTargetLevel
    split_ifs <;> omega
  have hupd : updateCompanyHQ s tile score = hqGrowLoop 8 s tile (hqTargetLevel score) := by
    unfold updateCompanyHQ
    rw [if_neg htile]
  obtain ⟨hit, hfr⟩ := hqGrowLoop_spec o (hqTargetLevel score - f) 8 (by omega) s tile
    (hqTargetLevel score) f hobj hnd hmem hf rfl hv4
  refine ⟨?_, hv4, by omega, by omega, ?_, ?_, ?_, ?_, ?_, ?_, ?_⟩
  · intro t ht
    rw [hupd]
    exact hfr t ht
  · intro a b hab
    unfold hqTargetLevel
    split_ifs <;> omega
  · intro hs; unfold hqTargetLevel; split_ifs <;> omega
  · intro hs1 hs2; unfold hqTargetLevel; split_ifs <;> omega
  · intro hs1 hs2; unfold hqTargetLevel; split_ifs <;> omega
  · intro hs1 hs2; unfold hqTargetLevel; split_ifs <;> omega
  · intro hs; unfold hqTargetLevel; split_ifs <;> omega
  · rw [hupd, hit]

/-- Witness for C6 on the concrete head-office world, score 400 (level 2). -/
theorem c6_hq_growth_witness :
    ((0 : Nat) ≠ INVALID_TILE ∧
     w1.objects ((w1.tiles 0).objIndex) = some ⟨⟨0, 2, 2⟩, 0, 0⟩ ∧
     (areaTiles w1.mapX (⟨⟨0, 2, 2⟩, 0, 0⟩ : ObjectRec).location).Nodup ∧
     0 ∈ areaTiles w1.mapX (⟨⟨0, 2, 2⟩, 0, 0⟩ : ObjectRec).location ∧
     (∀ t ∈ areaTiles w1.mapX (⟨⟨0, 2, 2⟩, 0, 0⟩ : ObjectRec).location,
        (w1.tiles t).frame = 0) ∧
     (0 : Nat) ≤ 4) ∧
    (∀ t ∈ areaTiles w1.mapX (⟨⟨0, 2, 2⟩, 0, 0⟩ : ObjectRec).location,
      ((updateCompanyHQ w1 0 400).tiles t).frame = max 0 (hqTargetLevel 400)) :=
  ⟨⟨by decide, by decide, by decide, by decide, by decide, by decide⟩,
   (c6_hq_growth w1 0 400 ⟨⟨0, 2, 2⟩, 0, 0⟩ 0 (by decide) (by decide) (by decide)
     (by decide) (by decide) (by decide)).1⟩

/-! ### Claim C5: capacity -/

/-- Claim C5 (amended): the only capacity limit is the pool-wide one: when
the live-object total has reached the pool maximum and the kind passes the
earlier availability and phase checks, Build fails with the capacity
error in both estimate and commit mode, leaving the state unchanged; there
is no per-kind capacity check. -/
theorem c5_pool_capacity (s : World) (tile : Nat) (flags : DoCommandFlag) (type : ObjectType)
    (hen : (ObjectSpec.get type).enabled = true)
    (hsc : ¬((ObjectSpec.get type).onlyInScenedit = true ∧
             (s.gameMode ≠ GameMode.editor ∨ s.currentCompany ≠ OWNER_NONE)))
    (hg : ¬((ObjectSpec.get type).onlyInGame = true ∧
            (s.gameMode ≠ GameMode.normal ∨ MAX_COMPANIES < s.currentCompany)))
    (hcap : OBJECT_POOL_MAX ≤ s.liveObjects) :
    cmdBuildObject s tile flags type = (cmdErrorMsg StringID.tooManyObjects, s) := by
  have hen' : ¬ ((ObjectSpec.get type).enabled = false) := by simp [hen]
  simp only [cmdBuildObject]
  rw [if_neg hen', if_neg hsc, if_neg hg, if_pos hcap]

/-- Witness for C5's amended theorem: a pool-full transmitter build in the
editor fails with the capacity error in both modes. -/
theorem c5_pool_capacity_witness :
    ((ObjectSpec.get ObjectType.transmitter).enabled = true ∧
     ¬((ObjectSpec.get ObjectType.transmitter).onlyInScenedit = true ∧
       (w2.gameMode ≠ GameMode.editor ∨ w2.currentCompany ≠ OWNER_NONE)) ∧
     ¬((ObjectSpec.get ObjectType.transmitter).onlyInGame = true ∧
       (w2.gameMode ≠ GameMode.normal ∨ MAX_COMPANIES < w2.currentCompany)) ∧
     OBJECT_POOL_MAX ≤ w2.liveObjects) ∧
    cmdBuildObject w2 9 ⟨true, false⟩ ObjectType.transmitter =
      (cmdErrorMsg StringID.tooManyObjects, w2) ∧
    cmdBuildObject w2 9 ⟨false, false⟩ ObjectType.transmitter =
      (cmdErrorMsg StringID.tooManyObjects, w2) :=
  ⟨⟨by decide, by decide, by decide, by decide⟩,
   c5_pool_capacity w2 9 ⟨true, false⟩ ObjectType.transmitter (by decide) (by decide)
     (by decide) (by decide),
   c5_pool_capacity w2 9 ⟨false, false⟩ ObjectType.transmitter (by decide) (by decide)
     (by decide) (by decide)⟩

/-- Counterexample to claim C5 as stated: with the transmitter count at the
(pool-wide) maximum — the only configured maximum in the code — a Build call
for that kind during normal play does not fail with the capacity-exceeded
error: the earlier phase check rejects it with a plain error first, in both
modes. -/
theorem c5_counterexample :
    w2n.counts ObjectType.transmitter = OBJECT_POOL_MAX ∧
    OBJECT_POOL_MAX ≤ w2n.liveObjects ∧
    (cmdBuildObject w2n 9 ⟨false, false⟩ ObjectType.transmitter).1.failed = true ∧
    (cmdBuildObject w2n 9 ⟨false, false⟩ ObjectType.transmitter).1.message ≠
      StringID.tooManyObjects ∧
    (cmdBuildObject w2n 9 ⟨true, false⟩ ObjectType.transmitter).1.message ≠
      StringID.tooManyObjects := by
  refine ⟨by decide, by decide, by decide, by decide, by decide⟩

/-! ### Claim C4: the total cost of a successful Build -/

theorem CommandCost.addCost_cost (a b : CommandCost) : (a.addCost b).cost = a.cost + b.cost :=
  rfl

theorem CommandCost.addMoney_cost (a : CommandCost) (m : Int) :
    (a.addMoney m).cost = a.cost + m := rfl

theorem clearTile_fst_mode (s : World) (tile : Nat) (a e1 e2 : Bool) :
    (clearTile_Object s tile ⟨e1, a⟩).1 = (clearTile_Object s tile ⟨e2, a⟩).1 := by
  unfold clearTile_Object
  cases hobj : s.objects ((s.tiles tile).objIndex)
  case none => simp only [hobj]
  case some o =>
    simp only [hobj]
    have hperm : clearPermissionCheck s tile ((s.tiles tile).objType)
        (ObjectSpec.get ((s.tiles tile).objType)) ⟨e1, a⟩ =
        clearPermissionCheck s tile ((s.tiles tile).objType)
        (ObjectSpec.get ((s.tiles tile).objType)) ⟨e2, a⟩ := rfl
    rw [hperm]
    cases hp : clearPermissionCheck s tile ((s.tiles tile).objType)
        (ObjectSpec.get ((s.tiles tile).objType)) ⟨e2, a⟩
    case some err => simp only [hp]
    case none =>
      simp only [hp]
      cases e1 <;> cases e2 <;>
        cases hty : (s.tiles tile).objType <;>
        simp [hty, Function.update_same]

theorem cmdBuildSwitch_mode_rel (s : World) (tile : Nat) (a : Bool) (type : ObjectType)
    (cost1 : CommandCost) :
    (∃ err, cmdBuildSwitch s tile ⟨true, a⟩ type cost1 = Sum.inl err ∧
            cmdBuildSwitch s tile ⟨false, a⟩ type cost1 = Sum.inl err) ∨
    (∃ res res', cmdBuildSwitch s tile ⟨true, a⟩ type cost1 = Sum.inr res ∧
                 cmdBuildSwitch s tile ⟨false, a⟩ type cost1 = Sum.inr res' ∧
                 res.2.1 = res'.2.1) := by
  unfold cmdBuildSwitch
  cases type
  case transmitter =>
    dsimp only
    split
    · exact Or.inl ⟨_, rfl, rfl⟩
    · exact Or.inr ⟨_, _, rfl, rfl, rfl⟩
  case lighthouse =>
    dsimp only
    split
    · exact Or.inl ⟨_, rfl, rfl⟩
    · exact Or.inr ⟨_, _, rfl, rfl, rfl⟩
  case ownedLand =>
    dsimp only
    split
    · exact Or.inl ⟨_, rfl, rfl⟩
    · exact Or.inr ⟨_, _, rfl, rfl, rfl⟩
  case statue =>
    dsimp only
    exact Or.inr ⟨_, _, rfl, rfl, rfl⟩
  case hq =>
    have hexF : ¬ ((⟨false, a⟩ : DoCommandFlag).exec = true) := by simp
    dsimp only
    rw [if_pos (rfl : (⟨true, a⟩ : DoCommandFlag).exec = true), if_neg hexF]
    refine Or.inr ?_
    split
    · refine ⟨_, _, rfl, rfl, ?_⟩
      dsimp only
      rw [clearTile_fst_mode { s with currentCompany := OWNER_WATER }
        ((s.companies s.currentCompany).locationOfHQ) a true false]
    · exact ⟨_, _, rfl, rfl, rfl⟩

/-- Claim C4 (amended): the total returned by a Build call is identical in
estimate and commit mode, and on success equals the terrain-check cost plus
the kind's build cost times the footprint area plus — for a head-office
build when the company already has one — the forced-clear relocation charge
(`hqRelocCost`, 1% of the company's value for a well-formed head office). -/
theorem c4_build_cost (s : World) (tile : Nat) (auto : Bool) (type : ObjectType) :
    (cmdBuildObject s tile ⟨true, auto⟩ type).1 =
      (cmdBuildObject s tile ⟨false, auto⟩ type).1 ∧
    ((cmdBuildObject s tile ⟨true, auto⟩ type).1.failed = false →
      (cmdBuildObject s tile ⟨true, auto⟩ type).1.cost =
        (if type = ObjectType.ownedLand then doLandscapeClear s tile ⟨true, auto⟩
         else checkFlatLand s ⟨tile, (ObjectSpec.get type).sizeX, (ObjectSpec.get type).sizeY⟩
           ⟨true, auto⟩).cost +
        hqRelocCost s ⟨true, auto⟩ type +
        (ObjectSpec.get type).buildCost *
          ((ObjectSpec.get type).sizeX * (ObjectSpec.get type).sizeY)) := by
  constructor
  · simp only [cmdBuildObject]
    rw [show doLandscapeClear s tile ⟨false, auto⟩ = doLandscapeClear s tile ⟨true, auto⟩
          from rfl,
        show checkFlatLand s ⟨tile, (ObjectSpec.get type).sizeX, (ObjectSpec.get type).sizeY⟩
            ⟨false, auto⟩ =
          checkFlatLand s ⟨tile, (ObjectSpec.get type).sizeX, (ObjectSpec.get type).sizeY⟩
            ⟨true, auto⟩ from rfl]
    split
    · rfl
    · split
      · rfl
      · split
        · rfl
        · split
          · rfl
          · split
            · rfl
            · split
              all_goals
                split
                · rfl
                · rcases cmdBuildSwitch_mode_rel s tile auto type _ with
                    ⟨err, h1, h2⟩ | ⟨res, res', h1, h2, hc⟩
                  · rw [h1, h2]
                  · rw [h1, h2]
                    dsimp only
                    rw [hc]
  · intro hsucc
    rcases cmdBuildObject_shape s tile ⟨true, auto⟩ type with hfail | ⟨hterr, res, hsw, hcmd⟩
    · rw [hsucc] at hfail
      cases hfail
    · have hfst : (cmdBuildObject s tile ⟨true, auto⟩ type).1 =
          res.2.1.addMoney ((ObjectSpec.get type).buildCost *
            ((ObjectSpec.get type).sizeX * (ObjectSpec.get type).sizeY)) := by
        rw [hcmd]
      rw [hfst, CommandCost.addMoney_cost]
      have hkey : res.2.1.cost =
          (if type = ObjectType.ownedLand then doLandscapeClear s tile ⟨true, auto⟩
           else checkFlatLand s ⟨tile, (ObjectSpec.get type).sizeX, (ObjectSpec.get type).sizeY⟩
             ⟨true, auto⟩).cost + hqRelocCost s ⟨true, auto⟩ type := by
        unfold cmdBuildSwitch at hsw
        cases type
        case transmitter =>
          dsimp only at hsw
          split at hsw
          · simp at hsw
          · cases hsw
            simp [hqRelocCost, CommandCost.addCost, CommandCost.zero]
        case lighthouse =>
          dsimp only at hsw
          split at hsw
          · simp at hsw
          · cases hsw
            simp [hqRelocCost, CommandCost.addCost, CommandCost.zero]
        case ownedLand =>
          dsimp only at hsw
          split at hsw
          · simp at hsw
          · cases hsw
            simp [hqRelocCost, CommandCost.addCost, CommandCost.zero]
        case statue =>
          dsimp only at hsw
          cases hsw
          simp [hqRelocCost, CommandCost.addCost, CommandCost.zero]
        case hq =>
          dsimp only at hsw
          rw [if_pos (rfl : (⟨true, auto⟩ : DoCommandFlag).exec = true)] at hsw
          split at hsw
          · rename_i hreloc
            cases hsw
            simp [hqRelocCost, CommandCost.addCost, CommandCost.zero, hreloc]
          · rename_i hnoreloc
            cases hsw
            simp [hqRelocCost, CommandCost.addCost, CommandCost.zero, hnoreloc]
      rw [hkey]

/-- Witness for C4's amended theorem on a successful concrete head-office
relocation build. -/
theorem c4_build_cost_witness :
    (cmdBuildObject w1 18 ⟨true, false⟩ ObjectType.hq).1.failed = false ∧
    (cmdBuildObject w1 18 ⟨true, false⟩ ObjectType.hq).1.cost =
      (if ObjectType.hq = ObjectType.ownedLand then doLandscapeClear w1 18 ⟨true, false⟩
       else checkFlatLand w1 ⟨18, (ObjectSpec.get ObjectType.hq).sizeX,
         (ObjectSpec.get ObjectType.hq).sizeY⟩ ⟨true, false⟩).cost +
      hqRelocCost w1 ⟨true, false⟩ ObjectType.hq +
      (ObjectSpec.get ObjectType.hq).buildCost *
        ((ObjectSpec.get ObjectType.hq).sizeX * (ObjectSpec.get ObjectType.hq).sizeY) :=
  ⟨by decide, (c4_build_cost w1 18 false ObjectType.hq).2 (by decide)⟩

/-- Counterexample to claim C4 as stated: a successful head-office build
with an existing head office returns strictly more than the terrain-check
cost plus build cost times footprint area — the extra 10 is the forced
relocation charge of 1% of the company's value (1000 / 100). -/
theorem c4_counterexample :
    (cmdBuildObject w1 18 ⟨true, false⟩ ObjectType.hq).1.failed = false ∧
    (cmdBuildObject w1 18 ⟨true, false⟩ ObjectType.hq).1.cost ≠
      (checkFlatLand w1 ⟨18, 2, 2⟩ ⟨true, false⟩).cost +
      (ObjectSpec.get ObjectType.hq).buildCost * (2 * 2) ∧
    (cmdBuildObject w1 18 ⟨true, false⟩ ObjectType.hq).1.cost =
      (checkFlatLand w1 ⟨18, 2, 2⟩ ⟨true, false⟩).cost + 1000 / 100 +
      (ObjectSpec.get ObjectType.hq).buildCost * (2 * 2) := by
  refine ⟨by decide, by decide, by decide⟩

/-! ### Claim C3: build/clear round trip -/

theorem frameOnlyCell_objType {c d : Cell} (h : frameOnlyCell c d) :
    d.objType = c.objType := h.2.2.2.2.2.1

theorem clearPermissionCheck_water (s : World) (tile : Nat) (type : ObjectType)
    (spec : ObjectSpec) (flags : DoCommandFlag) (hcc : s.currentCompany = OWNER_WATER) :
    clearPermissionCheck s tile type spec flags = none := by
  unfold clearPermissionCheck
  rw [if_pos hcc]

theorem makeWaterKeepingClass_self_invalid (s : World) (t : Nat)
    (h : (s.tiles t).wc = WaterClass.invalid) :
    ((makeWaterKeepingClass s t).tiles t).ttype = TType.clear ∧
    ((makeWaterKeepingClass s t).tiles t).wc = WaterClass.invalid := by
  simp only [makeWaterKeepingClass]
  rw [if_pos h]
  simp [Function.update_same]

theorem restoreFold_mem_clear :
    ∀ (l : List Nat) (s : World) (t : Nat), t ∈ l → (s.tiles t).wc = WaterClass.invalid →
      ((l.foldl (fun acc u => makeWaterKeepingClass acc u) s).tiles t).ttype = TType.clear ∧
      ((l.foldl (fun acc u => makeWaterKeepingClass acc u) s).tiles t).wc =
        WaterClass.invalid := by
  intro l
  induction l with
  | nil => intro s t ht _; cases ht
  | cons u l ih =>
      intro s t ht hw
      simp only [List.foldl_cons]
      by_cases he : t = u
      · subst he
        refine foldl_tiles_invariant _
          (fun c => c.ttype = TType.clear ∧ c.wc = WaterClass.invalid)
          (fun s' u' v hv => makeWaterKeepingClass_tiles_ne s' u' v hv)
          (fun s' u' hp => makeWaterKeepingClass_self_invalid s' u' hp.2) l _ t
          (makeWaterKeepingClass_self_invalid s t hw)
      · have ht' : t ∈ l := by
          cases List.mem_cons.mp ht with
          | inl hh => exact absurd hh he
          | inr hh => exact hh
        have hw' : ((makeWaterKeepingClass s u).tiles t).wc = WaterClass.invalid := by
          rw [makeWaterKeepingClass_tiles_ne s u t he]
          exact hw
        exact ih (makeWaterKeepingClass s u) t ht' hw'

/-- Membership of the north tile in its own footprint. -/
theorem areaTiles_self_mem (m : Nat) (ta : TileArea) (hw : 1 ≤ ta.w) (hh : 1 ≤ ta.h) :
    ta.tile ∈ areaTiles m ta := by
  unfold areaTiles
  rw [List.mem_flatMap]
  refine ⟨0, by rw [List.mem_range]; omega, ?_⟩
  rw [List.mem_map]
  exact ⟨0, by rw [List.mem_range]; omega, by omega⟩

theorem objectSpec_size_pos (type : ObjectType) :
    1 ≤ (ObjectSpec.get type).sizeX ∧ 1 ≤ (ObjectSpec.get type).sizeY := by
  cases type <;> exact ⟨by decide, by decide⟩

theorem costFold_failed (p : Nat → Prop) [DecidablePred p] :
    ∀ (l : List Nat) (acc : CommandCost), acc.failed = true →
      ((l.foldl (fun acc t => if acc.failed then acc
        else if p t then acc.addMoney CLEAR_PRICE
        else { acc with failed := true }) acc).failed) = true := by
  intro l
  induction l with
  | nil => intro acc h; exact h
  | cons u l ih =>
      intro acc h
      simp only [List.foldl_cons]
      rw [if_pos h]
      exact ih acc h

theorem costFold_success (p : Nat → Prop) [DecidablePred p] :
    ∀ (l : List Nat) (acc : CommandCost),
      ((l.foldl (fun acc t => if acc.failed then acc
        else if p t then acc.addMoney CLEAR_PRICE
        else { acc with failed := true }) acc).failed) = false →
      ∀ t ∈ l, p t := by
  intro l
  induction l with
  | nil => intro acc _ t ht; cases ht
  | cons u l ih =>
      intro acc h
      simp only [List.foldl_cons] at h
      by_cases hacc : acc.failed = true
      · rw [if_pos hacc] at h
        rw [costFold_failed p l acc hacc] at h
        cases h
      · rw [if_neg hacc] at h
        by_cases hp : p u
        · rw [if_pos hp] at h
          intro t ht
          cases List.mem_cons.mp ht with
          | inl hh => exact hh ▸ hp
          | inr hh => exact ih _ h t hh
        · rw [if_neg hp] at h
          rw [costFold_failed p l { acc with failed := true } rfl] at h
          cases h

theorem checkFlatLand_success_cells (s : World) (ta : TileArea) (fl : DoCommandFlag)
    (h : (checkFlatLand s ta fl).failed = false) :
    ∀ t ∈ areaTiles s.mapX ta,
      (s.tiles t).ttype = TType.clear ∧ (s.tiles t).slope = 0 := by
  unfold checkFlatLand at h
  intro t ht
  have := costFold_success
    (fun u => (s.tiles u).ttype = TType.clear ∧ (s.tiles u).slope = 0 ∧
      (s.tiles u).height = (s.tiles ta.tile).height)
    (areaTiles s.mapX ta) CommandCost.zero h t ht
  exact ⟨this.1, this.2.1⟩

theorem doLandscapeClear_success (s : World) (tile : Nat) (fl : DoCommandFlag)
    (h : (doLandscapeClear s tile fl).failed = false) :
    (s.tiles tile).ttype = TType.clear := by
  unfold doLandscapeClear at h
  by_cases hc : (s.tiles tile).ttype = TType.clear
  · exact hc
  · rw [if_neg hc] at h
    cases h

/-- When the acting company has no head office yet (or the kind is not the
head office), the kind switch of `CmdBuildObject` leaves the map array, the
registry and the counters of the incoming state untouched. -/
theorem cmdBuildSwitch_inr_frame (s : World) (tile : Nat) (flags : DoCommandFlag)
    (type : ObjectType) (cost1 : CommandCost) (res : Nat × CommandCost × World)
    (h : cmdBuildSwitch s tile flags type cost1 = Sum.inr res)
    (hnohq : type = ObjectType.hq → (s.companies s.currentCompany).locationOfHQ = INVALID_TILE) :
    res.2.2.tiles = s.tiles ∧ res.2.2.counts = s.counts ∧ res.2.2.objects = s.objects ∧
    res.2.2.mapX = s.mapX ∧ res.2.2.nextObjectId = s.nextObjectId ∧
    res.2.2.currentCompany = s.currentCompany := by
  unfold cmdBuildSwitch at h
  cases type
  case transmitter =>
    dsimp only at h
    split at h
    · simp at h
    · cases h; exact ⟨rfl, rfl, rfl, rfl, rfl, rfl⟩
  case lighthouse =>
    dsimp only at h
    split at h
    · simp at h
    · cases h; exact ⟨rfl, rfl, rfl, rfl, rfl, rfl⟩
  case ownedLand =>
    dsimp only at h
    split at h
    · simp at h
    · cases h; exact ⟨rfl, rfl, rfl, rfl, rfl, rfl⟩
  case statue =>
    dsimp only at h
    cases h; exact ⟨rfl, rfl, rfl, rfl, rfl, rfl⟩
  case hq =>
    dsimp only at h
    rw [if_neg (show ¬ ((s.companies s.currentCompany).locationOfHQ ≠ INVALID_TILE) by
      intro hcon; exact hcon (hnohq rfl))] at h
    cases hex : flags.exec <;> rw [hex] at h <;>
      simp only [Bool.false_eq_true, if_false, if_true] at h <;> cases h
    · exact ⟨rfl, rfl, rfl, rfl, rfl, rfl⟩
    · exact ⟨rfl, rfl, rfl, rfl, rfl, rfl⟩

theorem restoreFold_classify (l : List Nat) (b : World) (t : Nat) (ht : t ∈ l)
    (hw : (b.tiles t).wc = WaterClass.invalid) :
    classify ((l.foldl (fun acc u => makeWaterKeepingClass acc u) b).tiles t) =
      SurfaceClass.land := by
  simp [classify, (restoreFold_mem_clear l b t ht hw).1]

/-- A committed Clear in the force context: it succeeds, decrements the
kind's live count, and reverts every footprint cell whose stored water class
is invalid back to bare terrain. -/
theorem clearTile_exec_spec (s : World) (tile : Nat) (auto : Bool) (o : ObjectRec)
    (hcc : s.currentCompany = OWNER_WATER)
    (hobj : s.objects ((s.tiles tile).objIndex) = some o) :
    (clearTile_Object s tile ⟨true, auto⟩).1.failed = false ∧
    (clearTile_Object s tile ⟨true, auto⟩).2.counts =
      Function.update s.counts ((s.tiles tile).objType)
        (s.counts ((s.tiles tile).objType) - 1) ∧
    (∀ t ∈ areaTiles s.mapX o.location, (s.tiles t).wc = WaterClass.invalid →
      classify ((clearTile_Object s tile ⟨true, auto⟩).2.tiles t) = SurfaceClass.land) := by
  unfold clearTile_Object
  simp only [hobj, clearPermissionCheck_water s tile _ _ _ hcc, if_true]
  cases hty : (s.tiles tile).objType
  all_goals
    simp only [hty]
    refine ⟨?_, ?_, ?_⟩
    · first
        | trivial
        | simp [ObjectSpec.get]
    · first
        | (simp only [restoreFold_counts]
           rfl)
        | simp only [restoreFold_counts]
    · intro t ht hw
      exact restoreFold_classify (areaTiles s.mapX o.location) _ t ht hw

theorem zero_addCost_failed (b : CommandCost) :
    (CommandCost.zero.addCost b).failed = b.failed := by
  simp [CommandCost.addCost, CommandCost.zero]

theorem stampedFull_not_water {ty : ObjectType} {ow oid : Nat} {c : Cell}
    (h : stampedFull ty ow oid c) : c.ttype ≠ TType.water := by
  rw [h.1.1]
  intro hcon
  cases hcon

/-- Claim C3 (amended): when a committed Build succeeds and the build did
not itself force-clear a pre-existing head office (any kind other than the
head office, or a company with no head office yet), committing Clear on the
new object afterwards succeeds, restores every cell of the object's
rectangle to its prior terrain/water classification (here bare terrain,
since the terrain check only passes on clearable land; water would be
restored where the stored water class says so), and returns the kind's live
count to its pre-Build value. -/
theorem c3_build_clear_roundtrip (s : World) (tile : Nat) (auto : Bool) (type : ObjectType)
    (hsucc : (cmdBuildObject s tile ⟨true, auto⟩ type).1.failed = false)
    (hnohq : type = ObjectType.hq →
      (s.companies s.currentCompany).locationOfHQ = INVALID_TILE) :
    (clearTile_Object { (cmdBuildObject s tile ⟨true, auto⟩ type).2 with
        currentCompany := OWNER_WATER } tile ⟨true, auto⟩).1.failed = false ∧
    (clearTile_Object { (cmdBuildObject s tile ⟨true, auto⟩ type).2 with
        currentCompany := OWNER_WATER } tile ⟨true, auto⟩).2.counts type = s.counts type ∧
    ∀ t ∈ areaTiles s.mapX ⟨tile, (ObjectSpec.get type).sizeX, (ObjectSpec.get type).sizeY⟩,
      classify ((clearTile_Object { (cmdBuildObject s tile ⟨true, auto⟩ type).2 with
          currentCompany := OWNER_WATER } tile ⟨true, auto⟩).2.tiles t) =
        classify (s.tiles t) := by
  rcases cmdBuildObject_shape s tile ⟨true, auto⟩ type with hfail | ⟨hterr, res, hsw, hcmd⟩
  · rw [hsucc] at hfail
    cases hfail
  obtain ⟨hT, hC, hO, hX, hN, hCC⟩ :=
    cmdBuildSwitch_inr_frame s tile ⟨true, auto⟩ type _ res hsw hnohq
  have hs1 : (cmdBuildObject s tile ⟨true, auto⟩ type).2 =
      (if type = ObjectType.hq
       then updateCompanyHQ (buildObject res.2.2 type tile res.2.2.currentCompany none)
              tile res.1
       else buildObject res.2.2 type tile res.2.2.currentCompany none) := by
    rw [hcmd]
    rfl
  -- every cell of the footprint is clearable bare land before the build
  have harea : ∀ t ∈ areaTiles s.mapX
      ⟨tile, (ObjectSpec.get type).sizeX, (ObjectSpec.get type).sizeY⟩,
      (s.tiles t).ttype = TType.clear := by
    by_cases htyO : type = ObjectType.ownedLand
    · subst htyO
      rw [if_pos rfl, zero_addCost_failed] at hterr
      intro t ht
      have hcl := doLandscapeClear_success s tile ⟨true, auto⟩ hterr
      have : t = tile := by
        simp only [areaTiles, ObjectSpec.get, List.mem_flatMap, List.mem_map,
          List.mem_range] at ht
        obtain ⟨dy, hdy, dx, hdx, heq⟩ := ht
        have hdy0 : dy = 0 := by omega
        have hdx0 : dx = 0 := by omega
        subst hdy0
        subst hdx0
        omega
      rw [this]
      exact hcl
    · rw [if_neg htyO, zero_addCost_failed] at hterr
      intro t ht
      exact (checkFlatLand_success_cells s _ _ hterr t ht).1
  -- post-build cell facts on the footprint
  have hcellS1 : ∀ t ∈ areaTiles s.mapX
      ⟨tile, (ObjectSpec.get type).sizeX, (ObjectSpec.get type).sizeY⟩,
      (((cmdBuildObject s tile ⟨true, auto⟩ type).2.tiles t).ttype = TType.object ∧
       ((cmdBuildObject s tile ⟨true, auto⟩ type).2.tiles t).objType = type ∧
       ((cmdBuildObject s tile ⟨true, auto⟩ type).2.tiles t).objIndex = s.nextObjectId ∧
       ((cmdBuildObject s tile ⟨true, auto⟩ type).2.tiles t).wc = WaterClass.invalid) := by
    intro t ht
    have ht2 : t ∈ areaTiles res.2.2.mapX
        ⟨tile, (ObjectSpec.get type).sizeX, (ObjectSpec.get type).sizeY⟩ := by
      rw [hX]; exact ht
    have hw : (res.2.2.tiles t).ttype ≠ TType.water := by
      rw [hT, harea t ht]
      intro hcon
      cases hcon
    have hfull := buildObject_full_mem res.2.2 type tile res.2.2.currentCompany none t ht2 hw
    have hfo : frameOnlyCell
        ((buildObject res.2.2 type tile res.2.2.currentCompany none).tiles t)
        ((cmdBuildObject s tile ⟨true, auto⟩ type).2.tiles t) := by
      rw [hs1]
      split
      · exact updateCompanyHQ_frameOnly _ tile res.1 t
      · exact frameOnlyCell_refl _
    refine ⟨?_, ?_, ?_, ?_⟩
    · rw [frameOnlyCell_ttype hfo]; exact hfull.1.1
    · rw [frameOnlyCell_objType hfo]; exact hfull.1.2.1
    · rw [frameOnlyCell_objIndex hfo, hfull.1.2.2.1]; exact hN
    · rw [frameOnlyCell_wc hfo]; exact hfull.2
  -- the new object record
  have hobjS1 : (cmdBuildObject s tile ⟨true, auto⟩ type).2.objects s.nextObjectId =
      some { location := ⟨tile, (ObjectSpec.get type).sizeX, (ObjectSpec.get type).sizeY⟩,
             town := res.2.2.closestTown tile, buildDate := res.2.2.date } := by
    have hOB : (cmdBuildObject s tile ⟨true, auto⟩ type).2.objects =
        (buildObject res.2.2 type tile res.2.2.currentCompany none).objects := by
      rw [hs1]
      split
      · exact tilesOnly_objects (updateCompanyHQ_tilesOnly _ tile res.1)
      · rfl
    rw [hOB, buildObject_objects, hN]
    exact Function.update_same _ _ _
  -- counts after the build
  have hcountS1 : (cmdBuildObject s tile ⟨true, auto⟩ type).2.counts type =
      s.counts type + 1 := by
    have hCB : (cmdBuildObject s tile ⟨true, auto⟩ type).2.counts =
        (buildObject res.2.2 type tile res.2.2.currentCompany none).counts := by
      rw [hs1]
      split
      · exact tilesOnly_counts (updateCompanyHQ_tilesOnly _ tile res.1)
      · rfl
    rw [hCB, buildObject_counts, hC, Function.update_same]
  have hmapS1 : (cmdBuildObject s tile ⟨true, auto⟩ type).2.mapX = s.mapX := by
    have : (cmdBuildObject s tile ⟨true, auto⟩ type).2.mapX =
        (buildObject res.2.2 type tile res.2.2.currentCompany none).mapX := by
      rw [hs1]
      split
      · exact tilesOnly_mapX (updateCompanyHQ_tilesOnly _ tile res.1)
      · rfl
    rw [this, buildObject_mapX, hX]
  -- the forced clear of the fresh object
  have htileMem : tile ∈ areaTiles s.mapX
      ⟨tile, (ObjectSpec.get type).sizeX, (ObjectSpec.get type).sizeY⟩ :=
    areaTiles_self_mem s.mapX _ (objectSpec_size_pos type).1 (objectSpec_size_pos type).2
  obtain ⟨httile, hottile, hitile, hwtile⟩ := hcellS1 tile htileMem
  have hobjW : ({ (cmdBuildObject s tile ⟨true, auto⟩ type).2 with
      currentCompany := OWNER_WATER } : World).objects
      ((({ (cmdBuildObject s tile ⟨true, auto⟩ type).2 with
        currentCompany := OWNER_WATER } : World).tiles tile).objIndex) =
      some { location := ⟨tile, (ObjectSpec.get type).sizeX, (ObjectSpec.get type).sizeY⟩,
             town := res.2.2.closestTown tile, buildDate := res.2.2.date } := by
    show (cmdBuildObject s tile ⟨true, auto⟩ type).2.objects
      (((cmdBuildObject s tile ⟨true, auto⟩ type).2.tiles tile).objIndex) = _
    rw [hitile]
    exact hobjS1
  obtain ⟨hfail2, hcounts2, hcells2⟩ := clearTile_exec_spec
    { (cmdBuildObject s tile ⟨true, auto⟩ type).2 with currentCompany := OWNER_WATER }
    tile auto
    { location := ⟨tile, (ObjectSpec.get type).sizeX, (ObjectSpec.get type).sizeY⟩,
      town := res.2.2.closestTown tile, buildDate := res.2.2.date }
    rfl hobjW
  refine ⟨hfail2, ?_, ?_⟩
  · rw [hcounts2]
    have hty2 : (({ (cmdBuildObject s tile ⟨true, auto⟩ type).2 with
        currentCompany := OWNER_WATER } : World).tiles tile).objType = type := hottile
    rw [hty2, Function.update_same]
    show (cmdBuildObject s tile ⟨true, auto⟩ type).2.counts type - 1 = s.counts type
    rw [hcountS1]
    omega
  · intro t ht
    have hland := hcells2 t (by
      show t ∈ areaTiles (cmdBuildObject s tile ⟨true, auto⟩ type).2.mapX _
      rw [hmapS1]
      exact ht) (hcellS1 t ht).2.2.2
    rw [hland]
    have hc := harea t ht
    simp [classify, hc]

/-- Witness for C3's amended theorem: a committed transmitter build followed
by a forced clear on the concrete editor world. -/
theorem c3_build_clear_roundtrip_witness :
    ((cmdBuildObject w0 9 ⟨true, false⟩ ObjectType.transmitter).1.failed = false ∧
     (ObjectType.transmitter = ObjectType.hq →
       (w0.companies w0.currentCompany).locationOfHQ = INVALID_TILE)) ∧
    (clearTile_Object { (cmdBuildObject w0 9 ⟨true, false⟩ ObjectType.transmitter).2 with
        currentCompany := OWNER_WATER } 9 ⟨true, false⟩).2.counts ObjectType.transmitter =
      w0.counts ObjectType.transmitter :=
  ⟨⟨by decide, by decide⟩,
   (c3_build_clear_roundtrip w0 9 false ObjectType.transmitter (by decide) (by decide)).2.1⟩

/-- Counterexample to claim C3 as stated: building a head office while the
company already has one force-clears the old office during the Build, so
after the Build-then-Clear round trip the head-office live count is one
less than before the Build, not equal to it. -/
theorem c3_counterexample :
    (cmdBuildObject w1 18 ⟨true, false⟩ ObjectType.hq).1.failed = false ∧
    (clearTile_Object { (cmdBuildObject w1 18 ⟨true, false⟩ ObjectType.hq).2 with
        currentCompany := OWNER_WATER } 18 ⟨true, false⟩).1.failed = false ∧
    (clearTile_Object { (cmdBuildObject w1 18 ⟨true, false⟩ ObjectType.hq).2 with
        currentCompany := OWNER_WATER } 18 ⟨true, false⟩).2.counts ObjectType.hq ≠
      w1.counts ObjectType.hq := by
  refine ⟨by decide, by decide, by decide⟩

/-! ### Claim C8: radio-tower separation during world generation -/

theorem nearCoord_symm {a b : Nat} (h : nearCoord a b) : nearCoord b a := ⟨h.2, h.1⟩

theorem areaTiles_single (m c : Nat) : areaTiles m ⟨c, 1, 1⟩ = [c] := by
  unfold areaTiles
  rw [show List.range 1 = [0] from rfl]
  simp

theorem buildObject_mapArea (s : World) (ty : ObjectType) (tile ow : Nat) (tw : Option Nat) :
    (buildObject s ty tile ow tw).mapX = s.mapX ∧
    (buildObject s ty tile ow tw).mapY = s.mapY :=
  ⟨buildObject_mapX s ty tile ow tw, buildObject_mapY s ty tile ow tw⟩

theorem buildTransmitter_trans_iff (s : World) (c t : Nat) :
    isTransmitterTile (buildObject s ObjectType.transmitter c OWNER_NONE none) t = true ↔
      (t = c ∨ isTransmitterTile s t = true) := by
  by_cases he : t = c
  · subst he
    constructor
    · intro _
      exact Or.inl rfl
    · intro _
      have hmem : t ∈ areaTiles s.mapX ⟨t, (ObjectSpec.get ObjectType.transmitter).sizeX,
          (ObjectSpec.get ObjectType.transmitter).sizeY⟩ := by
        show t ∈ areaTiles s.mapX ⟨t, 1, 1⟩
        rw [areaTiles_single]
        exact List.mem_singleton.mpr rfl
      have hcore := buildObject_core_mem s ObjectType.transmitter t OWNER_NONE none t hmem
      unfold isTransmitterTile
      simp [hcore.1, hcore.2.1]
  · have hnm : t ∉ areaTiles s.mapX ⟨c, (ObjectSpec.get ObjectType.transmitter).sizeX,
        (ObjectSpec.get ObjectType.transmitter).sizeY⟩ := by
      show t ∉ areaTiles s.mapX ⟨c, 1, 1⟩
      rw [areaTiles_single]
      simp [he]
    have hsame := buildObject_tiles_not_mem s ObjectType.transmitter c OWNER_NONE none t hnm
    unfold isTransmitterTile
    rw [hsame]
    simp [he]

/-- Scan completeness of `IsRadioTowerNearby`: an in-map transmitter within
Chebyshev distance 4 of an in-map tile is found by the clipped 9x9 scan. -/
theorem isRadioTowerNearby_covers (s : World) (c t : Nat)
    (hm : 0 < s.mapX)
    (hc : c < s.mapX * s.mapY) (ht : t < s.mapX * s.mapY)
    (htr : isTransmitterTile s t = true)
    (hnx : nearCoord (tileXc s.mapX c) (tileXc s.mapX t))
    (hny : nearCoord (tileYc s.mapX c) (tileYc s.mapX t)) :
    isRadioTowerNearby s c = true := by
  simp only [nearCoord, tileXc, tileYc] at hnx hny
  obtain ⟨hnx1, hnx2⟩ := hnx
  obtain ⟨hny1, hny2⟩ := hny
  unfold isRadioTowerNearby tileXc tileYc
  rw [List.any_eq_true]
  refine ⟨t, ?_, htr⟩
  rw [List.mem_flatMap]
  have hcx : c % s.mapX < s.mapX := Nat.mod_lt _ hm
  have htx : t % s.mapX < s.mapX := Nat.mod_lt _ hm
  have hcy : c / s.mapX < s.mapY := by
    rw [Nat.div_lt_iff_lt_mul hm]
    rw [Nat.mul_comm] at hc
    exact hc
  have hty : t / s.mapX < s.mapY := by
    rw [Nat.div_lt_iff_lt_mul hm]
    rw [Nat.mul_comm] at ht
    exact ht
  have hdc := Nat.div_add_mod c s.mapX
  have hdt := Nat.div_add_mod t s.mapX
  set cy := c / s.mapX with hcye
  set cx := c % s.mapX with hcxe
  set ty2 := t / s.mapX with htye
  set tx2 := t % s.mapX with htxe
  clear_value cy cx ty2 tx2
  refine ⟨ty2 - (cy - min cy 4), List.mem_range.mpr ?_, ?_⟩
  · clear hcye hcxe htye htxe hdc hdt
    omega
  · rw [List.mem_map]
    refine ⟨tx2 - (cx - min cx 4), List.mem_range.mpr ?_, ?_⟩
    · clear hcye hcxe htye htxe hdc hdt
      omega
    · clear hcye hcxe htye htxe
      have hsub1 : min cy 4 * s.mapX + min cx 4 ≤ c := by
        have haM : min cy 4 * s.mapX ≤ cy * s.mapX :=
          Nat.mul_le_mul_right _ (min_le_left _ _)
        rw [Nat.mul_comm s.mapX cy] at hdc
        omega
      have hsub2 : cy - min cy 4 ≤ ty2 := by omega
      have hsub3 : cx - min cx 4 ≤ tx2 := by omega
      have hyy : min cy 4 ≤ cy := min_le_left _ _
      have hxx : min cx 4 ≤ cx := min_le_left _ _
      zify [hsub1, hsub2, hsub3, hyy, hxx]
      have hdcz : (s.mapX : Int) * (cy : Nat) + (cx : Nat) = c := by
        exact_mod_cast congrArg (Nat.cast : Nat → Int) hdc
      have hdtz : (s.mapX : Int) * (ty2 : Nat) + (tx2 : Nat) = t := by
        exact_mod_cast congrArg (Nat.cast : Nat → Int) hdt
      linear_combination hdtz - hdcz

/-- Building a transmitter on an in-map candidate that passed the 9x9
exclusion scan preserves the pairwise separation of all in-map towers. -/
theorem radioSeparated_build (s : World) (c : Nat)
    (hm : 0 < s.mapX)
    (hc : c < s.mapX * s.mapY)
    (hnear : isRadioTowerNearby s c = false)
    (hsep : radioSeparated s) :
    radioSeparated (buildObject s ObjectType.transmitter c OWNER_NONE none) := by
  intro t1 h1 t2 h2 htr1 htr2 hne
  rw [buildObject_mapX, buildObject_mapY] at h1 h2
  rw [show (buildObject s ObjectType.transmitter c OWNER_NONE none).mapX = s.mapX from
    buildObject_mapX s ObjectType.transmitter c OWNER_NONE none]
  rw [buildTransmitter_trans_iff] at htr1 htr2
  cases htr1 with
  | inl he1 =>
      cases htr2 with
      | inl he2 => exact absurd (he1.trans he2.symm) hne
      | inr hold2 =>
          subst he1
          intro hcon
          have := isRadioTowerNearby_covers s t1 t2 hm h1 h2 hold2 hcon.1 hcon.2
          rw [hnear] at this
          cases this
  | inr hold1 =>
      cases htr2 with
      | inl he2 =>
          subst he2
          intro hcon
          have := isRadioTowerNearby_covers s t2 t1 hm h2 h1 hold1
            (nearCoord_symm hcon.1) (nearCoord_symm hcon.2)
          rw [hnear] at this
          cases this
      | inr hold2 => exact hsep t1 h1 t2 h2 hold1 hold2 hne

/-- Claim C8: throughout the radio-tower pass of the world generator, no two
in-map radio towers ever stand within a 9x9 neighborhood of each other: if
the incoming state is separated, the state after running the pass on any
candidate stream and counter is still separated; each accepted candidate's
exclusion scan runs against all towers built by earlier candidates. -/
theorem c8_radio_separation :
    ∀ (cands : List Nat) (s : World) (n : Int),
      0 < s.mapX →
      (∀ c ∈ cands, c < s.mapX * s.mapY) →
      radioSeparated s →
      radioSeparated (generateRadioTowers s cands n) := by
  intro cands
  induction cands with
  | nil => intro s n _ _ h; exact h
  | cons c rest ih =>
      intro s n hm hin hsep
      have hdef : generateRadioTowers s (c :: rest) n =
          if radioTowerCandidateOK s c = true ∧ isRadioTowerNearby s c = false then
            (if n - 1 = 0 then buildObject s ObjectType.transmitter c OWNER_NONE none
             else generateRadioTowers (buildObject s ObjectType.transmitter c OWNER_NONE none)
                    rest (n - 1))
          else generateRadioTowers s rest n := rfl
      rw [hdef]
      by_cases hacc : radioTowerCandidateOK s c = true ∧ isRadioTowerNearby s c = false
      · rw [if_pos hacc]
        have hsep' := radioSeparated_build s c hm (hin c (List.mem_cons_self c rest))
          hacc.2 hsep
        by_cases hn : n - 1 = 0
        · rw [if_pos hn]
          exact hsep'
        · rw [if_neg hn]
          refine ih _ (n - 1) ?_ ?_ hsep'
          · rw [buildObject_mapX]
            exact hm
          · intro u hu
            rw [buildObject_mapX, buildObject_mapY]
            exact hin u (List.mem_cons_of_mem c hu)
      · rw [if_neg hacc]
        exact ih s n hm (fun u hu => hin u (List.mem_cons_of_mem c hu)) hsep

/-- Witness for C8: running the pass on the concrete empty editor world with
three candidates, two of which lie within 9x9 of the first. -/
theorem c8_radio_separation_witness :
    (0 < w0.mapX ∧ (∀ c ∈ [9, 12, 40], c < w0.mapX * w0.mapY) ∧ radioSeparated w0) ∧
    radioSeparated (generateRadioTowers w0 [9, 12, 40] 15) :=
  ⟨⟨by decide, by decide, by decide⟩,
   c8_radio_separation [9, 12, 40] w0 15 (by decide) (by decide) (by decide)⟩

/-! ### Claim C9: the lighthouse target count -/

/-- Claim C9: outside the tropic theme (where the pass is disabled), the
lighthouse target equals the spec's formula: a base scaled with the map's
linear border size which, exactly when the edge setting selects the scanned
polarity, is multiplied by the border water fraction estimated from the four
border lines. -/
theorem c9_lighthouse_target (s : World) (r : Nat)
    (h : s.landscape ≠ Landscape.tropic) :
    lighthousesToBuild s r = lighthouseTargetSpec s r := by
  unfold lighthousesToBuild lighthouseTargetSpec
  simp only [h, if_false]
  split
  · next hc =>
    simp only [hc.1, if_true]
  · next hc =>
    split
    · next hfree =>
      have hb : scaleByMapSize1D s ((r &&& 3) + 7) = 0 := by
        by_contra hne
        exact hc ⟨hfree, hne⟩
      simp [hb]
    · rfl

/-- Witness for C9 at a concrete world. -/
theorem c9_lighthouse_target_witness :
    (w0.landscape ≠ Landscape.tropic) ∧
    lighthousesToBuild w0 5 = lighthouseTargetSpec w0 5 :=
  ⟨by decide, c9_lighthouse_target w0 5 (by decide)⟩

/-! ### Claim C7: the clear permission ladder -/

set_option maxHeartbeats 4000000 in
/-- Claim C7: the permission checks of Clear are exactly the spec's ladder,
evaluated in order with the first matching rule deciding: a force context
passes; a kind disallowing automatic removal fails an automatic request with
the in-the-way error; editor mode passes; an unowned cell requires the
bulldozer privilege; a non-owning caller fails with owned-by-another-party;
a kind disallowing automatic removal fails without the privilege. -/
theorem c7_clear_permission_ladder (s : World) (tile : Nat) (type : ObjectType)
    (spec : ObjectSpec) (flags : DoCommandFlag) :
    clearPermissionCheck s tile type spec flags =
      specClearLadder (decide (s.currentCompany = OWNER_WATER)) (!spec.autoremove)
        flags.auto (decide (s.gameMode = GameMode.editor))
        (decide ((s.tiles tile).owner = OWNER_NONE)) s.magicBulldozer
        (decide ((s.tiles tile).owner = s.currentCompany))
        (cmdErrorMsg (if type = ObjectType.hq then StringID.companyHeadquartersIn
                      else StringID.objectInTheWay)) := by
  cases ha : spec.autoremove <;> cases hau : flags.auto <;> cases hb : s.magicBulldozer <;>
    by_cases h1 : s.currentCompany = OWNER_WATER <;>
    by_cases h2 : s.gameMode = GameMode.editor <;>
    by_cases h3 : (s.tiles tile).owner = OWNER_NONE <;>
    by_cases h4 : (s.tiles tile).owner = s.currentCompany <;>
    simp [clearPermissionCheck, specClearLadder, checkTileOwnership, ha, hau, hb,
      h1, h2, h3, h4, CommandCost.zero, cmdErrorMsg, cmdError]

end OTTD
